import Mathlib

/-!
Verification of the bobo multi-tenant authentication core
(`libs/auth/src/lib/services/{token,auth,tenant}.service.ts`).

The services are shallowly embedded as pure Lean functions over explicit
store states:

* Redis (sessions and refresh-token records) becomes `RedisStore`, an
  association-list state. Redis `SETEX`/`GET`/`DEL` become list cons,
  lookup and delete. The SHA-256 hash used as the refresh-record key is
  collision-free in practice, so the records are keyed by the raw token
  value itself.
* The Prisma database becomes `Db`, lists of rows for `User`, `Tenant`,
  `TenantUser` and `PasswordReset`. Prisma `findUnique` becomes a first
  `find?` (the schema enforces uniqueness of the looked-up columns).
* `crypto.randomUUID()` session ids are modelled by a fresh-id counter
  carried in the store; database row ids (UUID strings in the source) are
  modelled as naturals drawn from a counter.
* A signed JWT is modelled as its payload together with the signing key
  used; two signed strings are equal exactly when payload and key agree
  (JWT encoding is injective), and the two configured secrets are
  distinct values of `SigningKey`.
* `bcrypt` is modelled as an ideal salted hash; `jwtService.sign/verify`
  check the key and the `exp` claim against the supplied clock `now`
  (seconds).
* Thrown Nest exceptions become `Except` errors carrying the exact
  source message strings.
-/

/-- Database row ids (UUID/cuid strings in the source, abstracted as
naturals drawn from a freshness counter). -/
abbrev Uid := Nat

/-- `TenantRole` enum from `dto/tenant.dto.ts` (matches the Prisma schema). -/
inductive TenantRole where
  | OWNER
  | ADMIN
  | MEMBER
  | GUEST
deriving DecidableEq, Repr

/-- The `type` discriminator of a JWT payload (`'access' | 'refresh'`). -/
inductive TokenType where
  | access
  | refresh
deriving DecidableEq, Repr

/-- The two signing secrets, `JWT_SECRET` and `JWT_REFRESH_SECRET` from the
configuration. Modelling them as a two-element type encodes that the
deployment configures two distinct secrets. -/
inductive SigningKey where
  | accessSecret
  | refreshSecret
deriving DecidableEq, Repr

/-- `JwtPayload` from `interfaces/auth.interface.ts`:
`sub, email, tenantId?, role?, permissions?, sessionId, type, iat, exp`. -/
structure JwtPayload where
  sub : Uid
  email : String
  tenantId : Option Uid
  role : Option TenantRole
  permissions : List String
  sessionId : Nat
  tokenType : TokenType
  iat : Nat
  exp : Nat
deriving DecidableEq, Repr

/-- A signed JWT string: payload plus the key it was signed with.
Signed-string equality coincides with equality of this structure. -/
structure SignedToken where
  payload : JwtPayload
  key : SigningKey
deriving DecidableEq, Repr

/-- `jwtService.verify(token, {secret})`: succeeds when the token was signed
with the expected key and its `exp` claim is still in the future. -/
def jwtVerify (expected : SigningKey) (now : Nat) (tok : SignedToken) :
    Option JwtPayload :=
  if tok.key = expected ∧ now < tok.payload.exp then some tok.payload else none

/-- `SessionData` stored under `session:{sessionId}`. -/
structure SessionData where
  userId : Uid
  tenantId : Option Uid
  sessionId : Nat
  expiresAt : Nat
deriving DecidableEq, Repr

/-- The `{userId, sessionId}` record stored under `refresh:{sha256(token)}`. -/
structure RefreshData where
  userId : Uid
  sessionId : Nat
deriving DecidableEq, Repr

/-- Association-list lookup (Redis `GET`). -/
def alookup {κ ν : Type} [DecidableEq κ] (k : κ) : List (κ × ν) → Option ν
  | [] => none
  | (k', v) :: rest => if k' = k then some v else alookup k rest

/-- Association-list delete (Redis `DEL`): removes every binding of `k`. -/
def adelete {κ ν : Type} [DecidableEq κ] (k : κ) : List (κ × ν) → List (κ × ν)
  | [] => []
  | (k', v) :: rest =>
      if k' = k then adelete k rest else (k', v) :: adelete k rest

/-- The Redis state used by `TokenService`: the `session:*` keyspace, the
`refresh:*` keyspace (keyed by the raw refresh token, standing for its
SHA-256 hash), and the fresh-session-id counter standing for
`crypto.randomUUID()`. -/
structure RedisStore where
  sessions : List (Nat × SessionData)
  refreshRecords : List (SignedToken × RefreshData)
  nextSessionId : Nat
deriving DecidableEq, Repr

/-- Well-formedness of the Redis state: every stored session id was drawn
from the freshness counter, and no session key repeats. This is the
shallow counterpart of `crypto.randomUUID()` never colliding. -/
def RedisStore.WF (st : RedisStore) : Prop :=
  (∀ p ∈ st.sessions, p.1 < st.nextSessionId) ∧
  (∀ p ∈ st.refreshRecords, p.1.payload.sessionId < st.nextSessionId) ∧
  (st.sessions.map Prod.fst).Nodup

/-- `TokenService.accessTokenExpiry` (1 hour). -/
def accessTokenExpiry : Nat := 3600

/-- `TokenService.refreshTokenExpiry` (7 days). -/
def refreshTokenExpiry : Nat := 604800

/-- `AuthTokens` as returned by `generateTokens`. -/
structure TokenPair where
  accessToken : SignedToken
  refreshToken : SignedToken
  expiresIn : Nat
deriving DecidableEq, Repr

/-- `TokenService.generateTokens`: draws a fresh session id, signs the
access and refresh payloads sharing it, stores the session record and the
refresh record, and returns the pair. -/
def generateTokens (st : RedisStore) (userId : Uid) (email : String)
    (tenantId : Option Uid) (role : Option TenantRole)
    (permissions : List String) (now : Nat) : TokenPair × RedisStore :=
  let sessionId := st.nextSessionId
  let accessPayload : JwtPayload :=
    { sub := userId, email := email, tenantId := tenantId, role := role
      permissions := permissions, sessionId := sessionId
      tokenType := .access, iat := now, exp := now + accessTokenExpiry }
  let refreshPayload : JwtPayload :=
    { sub := userId, email := email, tenantId := tenantId, role := role
      permissions := permissions, sessionId := sessionId
      tokenType := .refresh, iat := now, exp := now + refreshTokenExpiry }
  let accessToken : SignedToken := ⟨accessPayload, .accessSecret⟩
  let refreshTok : SignedToken := ⟨refreshPayload, .refreshSecret⟩
  let sessionData : SessionData :=
    { userId := userId, tenantId := tenantId, sessionId := sessionId
      expiresAt := now + refreshTokenExpiry }
  (⟨accessToken, refreshTok, accessTokenExpiry⟩,
   { sessions := (sessionId, sessionData) :: st.sessions
     refreshRecords := (refreshTok, ⟨userId, sessionId⟩) :: st.refreshRecords
     nextSessionId := st.nextSessionId + 1 })

/-- Failures thrown by `TokenService`, one constructor per distinct source
message:
* `jwtInvalid` — `jwtService.verify` threw (bad signature key or expired),
  wrapped as `Invalid access/refresh token: ...`; the spec calls this
  `InvalidToken`.
* `sessionInvalid` — `Session is invalid or expired` (session record
  absent); the spec calls this `SessionExpired`.
* `refreshRevoked` — `Refresh token is invalid or revoked` (refresh
  record absent); the spec also files this under `InvalidToken`. -/
inductive TokenErr where
  | jwtInvalid
  | sessionInvalid
  | refreshRevoked
deriving DecidableEq, Repr

/-- `TokenService.verifyAccessToken`: signature/expiry check with the
access key, then the live-session lookup. -/
def verifyAccessToken (st : RedisStore) (tok : SignedToken) (now : Nat) :
    Except TokenErr JwtPayload :=
  match jwtVerify .accessSecret now tok with
  | none => .error .jwtInvalid
  | some payload =>
      match alookup payload.sessionId st.sessions with
      | some _ => .ok payload
      | none => .error .sessionInvalid

/-- `TokenService.verifyRefreshToken`: signature/expiry check with the
refresh key, then the refresh-record lookup by token hash. -/
def verifyRefreshToken (st : RedisStore) (tok : SignedToken) (now : Nat) :
    Except TokenErr JwtPayload :=
  match jwtVerify .refreshSecret now tok with
  | none => .error .jwtInvalid
  | some payload =>
      match alookup tok st.refreshRecords with
      | some _ => .ok payload
      | none => .error .refreshRevoked

/-- `TokenService.revokeSession`: deletes `session:{sessionId}`. -/
def revokeSession (st : RedisStore) (sessionId : Nat) : RedisStore :=
  { st with sessions := adelete sessionId st.sessions }

/-- `TokenService.revokeRefreshToken`: deletes `refresh:{sha256(token)}`. -/
def revokeRefreshTok (st : RedisStore) (tok : SignedToken) : RedisStore :=
  { st with refreshRecords := adelete tok st.refreshRecords }

/-- `TokenService.revokeAllUserSessions`: scans the `session:*` keyspace and
deletes every record whose stored `userId` matches. The `refresh:*`
keyspace is not touched. -/
def revokeAllUserSessions (st : RedisStore) (userId : Uid) : RedisStore :=
  { st with sessions := st.sessions.filter (fun p => decide (p.2.userId ≠ userId)) }

/-- An ideal model of a bcrypt digest: the salt together with the password
the digest was computed from. The source stores this as an opaque string
column; only `bcrypt.hash` and `bcrypt.compare` ever interpret it. -/
structure HashedPassword where
  salt : String
  digestOf : String
deriving DecidableEq, Repr

/-- `bcrypt.hash(password, salt)` (ideal-hash model). -/
def bcryptHash (salt password : String) : HashedPassword :=
  ⟨salt, password⟩

/-- `bcrypt.compare(password, hash)`: true exactly when `hash` was produced
by `bcryptHash` from `password` (ideal hash: no collisions). -/
def bcryptCompare (password : String) (hash : HashedPassword) : Bool :=
  hash.digestOf == password

/-- A `User` row (the columns the auth services read or write). -/
structure User where
  id : Uid
  email : String
  passwordHash : Option HashedPassword
  salt : Option String
  firstName : Option String
  lastName : Option String
  isActive : Bool
  isVerified : Bool
  emailVerified : Bool
  defaultTenantId : Option Uid
  lastLoginAt : Option Nat
deriving DecidableEq, Repr

/-- A `Tenant` row. -/
structure Tenant where
  id : Uid
  name : String
  slug : String
  plan : String
  isActive : Bool
deriving DecidableEq, Repr

/-- A `TenantUser` (membership) row; `(tenantId, userId)` is unique. -/
structure TenantUser where
  id : Uid
  tenantId : Uid
  userId : Uid
  role : TenantRole
  permissions : List String
  isActive : Bool
  invitedBy : Option Uid
  invitedAt : Option Nat
deriving DecidableEq, Repr

/-- A `PasswordReset` row; `tokenHash` is unique. -/
structure PasswordReset where
  id : Uid
  userId : Uid
  tokenHash : String
  expiresAt : Nat
  isUsed : Bool
  usedAt : Option Nat
deriving DecidableEq, Repr

/-- The Prisma database state: row lists plus a fresh-row-id counter
standing for uuid/cuid generation. -/
structure Db where
  users : List User
  tenants : List Tenant
  tenantUsers : List TenantUser
  passwordResets : List PasswordReset
  nextId : Uid
deriving DecidableEq, Repr

/-- `prisma.user.findUnique({where: {email}})` (email is a unique column). -/
def findUserByEmail (db : Db) (email : String) : Option User :=
  db.users.find? (fun u => u.email == email)

/-- `prisma.user.findUnique({where: {id}})`. -/
def findUserById (db : Db) (id : Uid) : Option User :=
  db.users.find? (fun u => u.id == id)

/-- `prisma.tenantUser.findUnique({where: {tenantId_userId}})`. -/
def findTenantUser (db : Db) (tenantId userId : Uid) : Option TenantUser :=
  db.tenantUsers.find? (fun tu => tu.tenantId == tenantId && tu.userId == userId)

/-- The `tenantUsers` relation as included by the auth service queries:
`{where: {isActive: true}}`, in row order. -/
def activeMemberships (db : Db) (userId : Uid) : List TenantUser :=
  db.tenantUsers.filter (fun tu => tu.userId == userId && tu.isActive)

/-- `crypto.createHash('sha256')...digest('hex')` modelled as an injective
tagging function (SHA-256 is collision-free in practice). -/
def sha256Hex (s : String) : String :=
  "sha256$" ++ s

/-- Failures thrown by `AuthService`/`TenantService`, one constructor per
Nest exception class, carrying the exact source message. `tokenErr` is a
`TokenService` error propagating through; `storeConstraint` is a Prisma
unique-constraint violation aborting a transaction. -/
inductive AuthErr where
  | conflict (msg : String)
  | unauthorizedErr (msg : String)
  | badRequest (msg : String)
  | forbidden (msg : String)
  | notFound (msg : String)
  | tokenErr (e : TokenErr)
  | storeConstraint
deriving DecidableEq, Repr

/-- `RegisterDto` (post-validation fields the service reads). -/
structure RegisterDto where
  email : String
  password : String
  firstName : String
  lastName : String
  tenantSlug : Option String
  tenantName : Option String
deriving DecidableEq, Repr

/-- `LoginDto`. -/
structure LoginDto where
  email : String
  password : String
  tenantId : Option Uid
deriving DecidableEq, Repr

/-- `RefreshTokenDto`. -/
structure RefreshTokenDto where
  refreshToken : SignedToken
  tenantId : Option Uid
deriving DecidableEq, Repr

/-- `SwitchTenantDto`. -/
structure SwitchTenantDto where
  tenantId : Uid
deriving DecidableEq, Repr

/-- `ChangePasswordDto`. -/
structure ChangePasswordDto where
  currentPassword : String
  newPassword : String
deriving DecidableEq, Repr

/-- `ForgotPasswordDto`. -/
structure ForgotPasswordDto where
  email : String
deriving DecidableEq, Repr

/-- The parts of a `LoginResponse` the claims are about, together with the
post-state of both stores. -/
structure AuthResult where
  db : Db
  redis : RedisStore
  tokens : TokenPair
  tenant : Option Uid
deriving DecidableEq, Repr

/-- `AuthService.register`: conflict check on email, then one transaction
creating the Tenant, the User (defaulting to that tenant) and the OWNER
membership; then mints tokens scoped to the new tenant with role OWNER.
`salt` stands for `bcrypt.genSalt(10)` and `rand` for the random slug
suffix `crypto.randomBytes(4).toString('hex')`. A duplicate tenant slug
violates the unique constraint inside the transaction, which rolls back
whole (`storeConstraint`). -/
def register (db : Db) (st : RedisStore) (dto : RegisterDto)
    (salt rand : String) (now : Nat) : Except AuthErr AuthResult :=
  match findUserByEmail db dto.email with
  | some _ => .error (.conflict "User with this email already exists")
  | none =>
    let passwordHash := bcryptHash salt dto.password
    let tenantSlug := dto.tenantSlug.getD (dto.firstName.toLower ++ "-" ++ rand)
    if db.tenants.any (fun t => t.slug == tenantSlug) then .error .storeConstraint
    else
      let tenantId := db.nextId
      let userId := db.nextId + 1
      let tuId := db.nextId + 2
      let tenant : Tenant :=
        { id := tenantId, name := dto.tenantName.getD (dto.firstName ++ "\x27s Workspace")
          slug := tenantSlug, plan := "FREE", isActive := true }
      let user : User :=
        { id := userId, email := dto.email, passwordHash := some passwordHash
          salt := some salt, firstName := some dto.firstName
          lastName := some dto.lastName, isActive := true, isVerified := false
          emailVerified := false, defaultTenantId := some tenantId
          lastLoginAt := none }
      let tu : TenantUser :=
        { id := tuId, tenantId := tenantId, userId := userId
          role := .OWNER, permissions := [], isActive := true
          invitedBy := none, invitedAt := none }
      let db' : Db :=
        { db with tenants := tenant :: db.tenants, users := user :: db.users
                  tenantUsers := tu :: db.tenantUsers, nextId := db.nextId + 3 }
      let (tokens, st') :=
        generateTokens st userId dto.email (some tenantId) (some .OWNER) [] now
      .ok { db := db', redis := st', tokens := tokens, tenant := some tenantId }

/-- The tenant-context resolution inside `AuthService.login`:
`let tenantId = dto.tenantId || user.defaultTenantId`; if set, role and
permissions come from the matching active membership when there is one
(referencing default `MEMBER` / `[]` otherwise); if unset, the first
active membership is used when any exists. -/
def loginResolveTenant (db : Db) (user : User) (requested : Option Uid) :
    Option Uid × TenantRole × List String :=
  let tus := activeMemberships db user.id
  match requested.or user.defaultTenantId with
  | some tid =>
      match tus.find? (fun tu => tu.tenantId == tid) with
      | some tu => (some tid, tu.role, tu.permissions)
      | none => (some tid, .MEMBER, [])
  | none =>
      match tus with
      | tu :: _ => (some tu.tenantId, tu.role, tu.permissions)
      | [] => (none, .MEMBER, [])

/-- `AuthService.login`: credential checks (missing, inactive,
password-less and wrong-password cases), tenant-context resolution,
last-login update, token minting. -/
def login (db : Db) (st : RedisStore) (dto : LoginDto) (now : Nat) :
    Except AuthErr AuthResult :=
  match findUserByEmail db dto.email with
  | none => .error (.unauthorizedErr "Invalid credentials")
  | some user =>
    if user.isActive = false then .error (.unauthorizedErr "Invalid credentials")
    else
      match user.passwordHash with
      | none =>
          .error (.unauthorizedErr
            "This account uses OAuth. Please login with your OAuth provider.")
      | some hash =>
        if bcryptCompare dto.password hash = false then
          .error (.unauthorizedErr "Invalid credentials")
        else
          let (tenantId, role, permissions) := loginResolveTenant db user dto.tenantId
          let db' : Db :=
            { db with users := db.users.map (fun u =>
                if u.id == user.id then { u with lastLoginAt := some now } else u) }
          let (tokens, st') :=
            generateTokens st user.id user.email tenantId (some role) permissions now
          let tenant :=
            match tenantId with
            | some tid =>
                if (activeMemberships db user.id).any (fun tu => tu.tenantId == tid)
                then some tid else none
            | none => none
          .ok { db := db', redis := st', tokens := tokens, tenant := tenant }

/-- `AuthService.refreshToken`: verifies the refresh token (signature plus
single-use record), loads the user, resolves the tenant context
(`dto.tenantId || payload.tenantId || user.defaultTenantId`, with no
first-membership fallback), always revokes the old session and the
consumed refresh record, then mints a new pair. -/
def refreshTokenOp (db : Db) (st : RedisStore) (dto : RefreshTokenDto)
    (now : Nat) : Except AuthErr AuthResult :=
  match verifyRefreshToken st dto.refreshToken now with
  | .error e => .error (.tokenErr e)
  | .ok payload =>
    match findUserById db payload.sub with
    | none => .error (.unauthorizedErr "User not found or inactive")
    | some user =>
      if user.isActive = false then
        .error (.unauthorizedErr "User not found or inactive")
      else
        let tenantId := (dto.tenantId.or payload.tenantId).or user.defaultTenantId
        let (role, permissions) :=
          match tenantId with
          | some tid =>
              match (activeMemberships db user.id).find? (fun tu => tu.tenantId == tid) with
              | some tu => (tu.role, tu.permissions)
              | none => (TenantRole.MEMBER, ([] : List String))
          | none => (TenantRole.MEMBER, [])
        let st1 := revokeSession st payload.sessionId
        let st2 := revokeRefreshTok st1 dto.refreshToken
        let (tokens, st3) :=
          generateTokens st2 user.id user.email tenantId (some role) permissions now
        let tenant :=
          match tenantId with
          | some tid =>
              if (activeMemberships db user.id).any (fun tu => tu.tenantId == tid)
              then some tid else none
          | none => none
        .ok { db := db, redis := st3, tokens := tokens, tenant := tenant }

/-- `AuthService.switchTenant`: requires an active membership for
`(dto.tenantId, userId)`, then mints a fresh pair scoped to that tenant
and role. No session is revoked. -/
def switchTenant (db : Db) (st : RedisStore) (userId : Uid)
    (dto : SwitchTenantDto) (now : Nat) : Except AuthErr AuthResult :=
  match findTenantUser db dto.tenantId userId with
  | none => .error (.unauthorizedErr "Access to this tenant is denied")
  | some tenantUser =>
    if tenantUser.isActive = false then
      .error (.unauthorizedErr "Access to this tenant is denied")
    else
      match findUserById db userId with
      | none => .error (.notFound "User not found")
      | some user =>
        let (tokens, st') :=
          generateTokens st userId user.email (some dto.tenantId)
            (some tenantUser.role) tenantUser.permissions now
        .ok { db := db, redis := st', tokens := tokens, tenant := some dto.tenantId }

/-- `AuthService.changePassword`: OAuth-only and wrong-password guards,
then updates hash and salt and revokes all the user's sessions.
`newSalt` stands for the fresh `bcrypt.genSalt(10)`. -/
def changePassword (db : Db) (st : RedisStore) (userId : Uid)
    (dto : ChangePasswordDto) (newSalt : String) :
    Except AuthErr (Db × RedisStore) :=
  match findUserById db userId with
  | none => .error (.notFound "User not found")
  | some user =>
    match user.passwordHash with
    | none =>
        .error (.badRequest "This account uses OAuth and does not have a password")
    | some hash =>
      if bcryptCompare dto.currentPassword hash = false then
        .error (.unauthorizedErr "Current password is incorrect")
      else
        let db' : Db :=
          { db with users := db.users.map (fun u =>
              if u.id == userId then
                { u with passwordHash := some (bcryptHash newSalt dto.newPassword)
                         salt := some newSalt }
              else u) }
        .ok (db', revokeAllUserSessions st userId)

/-- `AuthService.forgotPassword`: silently succeeds when the email is
unknown; otherwise stores the hash of a fresh reset token (`resetTok`
stands for `crypto.randomBytes(32).toString('hex')`). The caller-visible
response is the `Except` component, the stored state the `Db`. -/
def forgotPassword (db : Db) (dto : ForgotPasswordDto) (resetTok : String)
    (now : Nat) : Db × Except AuthErr Unit :=
  match findUserByEmail db dto.email with
  | none => (db, .ok ())
  | some user =>
    let pr : PasswordReset :=
      { id := db.nextId, userId := user.id, tokenHash := sha256Hex resetTok
        expiresAt := now + 3600, isUsed := false, usedAt := none }
    ({ db with passwordResets := pr :: db.passwordResets, nextId := db.nextId + 1 },
     .ok ())

/-- `AuthService.resetPassword`: looks up the reset row by token hash,
rejects missing/used/expired tokens, then (in one transaction) updates the
password and marks the row used, and revokes all the user's sessions. -/
def resetPassword (db : Db) (st : RedisStore) (token newPassword : String)
    (newSalt : String) (now : Nat) : Except AuthErr (Db × RedisStore) :=
  let tokenHash := sha256Hex token
  match db.passwordResets.find? (fun r => r.tokenHash == tokenHash) with
  | none => .error (.badRequest "Invalid or expired reset token")
  | some resetRow =>
    if resetRow.isUsed || decide (resetRow.expiresAt < now) then
      .error (.badRequest "Invalid or expired reset token")
    else
      let db' : Db :=
        { db with
            users := db.users.map (fun u =>
              if u.id == resetRow.userId then
                { u with passwordHash := some (bcryptHash newSalt newPassword)
                         salt := some newSalt }
              else u)
            passwordResets := db.passwordResets.map (fun r =>
              if r.id == resetRow.id then
                { r with isUsed := true, usedAt := some now }
              else r) }
      .ok (db', revokeAllUserSessions st resetRow.userId)

/-- `InviteUserDto`. -/
structure InviteUserDto where
  email : String
  role : TenantRole
  permissions : Option (List String)
deriving DecidableEq, Repr

/-- `UpdateMemberDto`. -/
structure UpdateMemberDto where
  userId : Uid
  role : Option TenantRole
  permissions : Option (List String)
  isActive : Option Bool
deriving DecidableEq, Repr

/-- `RemoveMemberDto`. -/
structure RemoveMemberDto where
  userId : Uid
deriving DecidableEq, Repr

/-- `TransferOwnershipDto`. -/
structure TransferOwnershipDto where
  newOwnerId : Uid
deriving DecidableEq, Repr

/-- `TenantService.verifyTenantAccess`: the membership row for
`(tenantId, userId)` when it exists and is active. -/
def verifyTenantAccess (db : Db) (tenantId userId : Uid) :
    Except AuthErr TenantUser :=
  match findTenantUser db tenantId userId with
  | none => .error (.unauthorizedErr "Access to this tenant is denied")
  | some tenantUser =>
    if tenantUser.isActive = false then
      .error (.unauthorizedErr "Access to this tenant is denied")
    else .ok tenantUser

/-- The row update built by `TenantService.updateMember`: only the fields
present in the DTO are written. -/
def applyMemberUpdate (dto : UpdateMemberDto) (tu : TenantUser) : TenantUser :=
  { tu with role := dto.role.getD tu.role
            permissions := dto.permissions.getD tu.permissions
            isActive := dto.isActive.getD tu.isActive }

/-- `TenantService.updateMember`. All guards precede the single write, so
every error leaves the database unchanged (returned explicitly). -/
def updateMember (db : Db) (tenantId updaterId : Uid) (dto : UpdateMemberDto) :
    Db × Except AuthErr Unit :=
  match verifyTenantAccess db tenantId updaterId with
  | .error e => (db, .error e)
  | .ok updater =>
    if ¬(updater.role = .OWNER ∨ updater.role = .ADMIN) then
      (db, .error (.forbidden "Only owners and admins can update members"))
    else
      match findTenantUser db tenantId dto.userId with
      | none => (db, .error (.notFound "Member not found"))
      | some member =>
        if member.role = .OWNER ∧ dto.role ≠ none ∧ dto.role ≠ some .OWNER then
          (db, .error (.badRequest
            "Cannot change owner role. Use transfer ownership instead."))
        else if updater.role ≠ .OWNER ∧
            (dto.role = some .OWNER ∨ member.role = .OWNER) then
          (db, .error (.forbidden "Only owners can manage owner role"))
        else
          ({ db with tenantUsers := db.tenantUsers.map (fun tu =>
              if tu.id == member.id then applyMemberUpdate dto tu else tu) },
           .ok ())

/-- `TenantService.removeMember`. All guards precede the delete. -/
def removeMember (db : Db) (tenantId removerId : Uid) (dto : RemoveMemberDto) :
    Db × Except AuthErr Unit :=
  match verifyTenantAccess db tenantId removerId with
  | .error e => (db, .error e)
  | .ok remover =>
    if ¬(remover.role = .OWNER ∨ remover.role = .ADMIN) then
      (db, .error (.forbidden "Only owners and admins can remove members"))
    else
      match findTenantUser db tenantId dto.userId with
      | none => (db, .error (.notFound "Member not found"))
      | some member =>
        if member.role = .OWNER then
          (db, .error (.badRequest "Cannot remove owner. Transfer ownership first."))
        else if removerId = dto.userId ∧ remover.role = .ADMIN then
          (db, .error (.badRequest "Admins cannot remove themselves"))
        else
          ({ db with tenantUsers :=
              db.tenantUsers.filter (fun tu => decide (tu.id ≠ member.id)) },
           .ok ())

/-- `tx.tenantUser.update({where: {id: rowId}, data: {role}})` as a row
transformer over the membership list. -/
def updateRowRole (rowId : Uid) (newRole : TenantRole) (tu : TenantUser) : TenantUser :=
  if tu.id == rowId then { tu with role := newRole } else tu

/-- `TenantService.transferOwnership`: demotes the current owner row to
ADMIN and promotes the target row to OWNER, in one transaction (two
sequential updates). -/
def transferOwnership (db : Db) (tenantId currentOwnerId : Uid)
    (dto : TransferOwnershipDto) : Db × Except AuthErr Unit :=
  match verifyTenantAccess db tenantId currentOwnerId with
  | .error e => (db, .error e)
  | .ok currentOwner =>
    if currentOwner.role ≠ .OWNER then
      (db, .error (.forbidden "Only the current owner can transfer ownership"))
    else
      match findTenantUser db tenantId dto.newOwnerId with
      | none => (db, .error (.notFound "New owner is not a member of this tenant"))
      | some newOwner =>
        let afterDemote := db.tenantUsers.map (updateRowRole currentOwner.id .ADMIN)
        let afterPromote := afterDemote.map (updateRowRole newOwner.id .OWNER)
        ({ db with tenantUsers := afterPromote }, .ok ())

/-- `TenantService.leaveTenant`: self-removal, blocked for the OWNER. -/
def leaveTenant (db : Db) (tenantId userId : Uid) : Db × Except AuthErr Unit :=
  match verifyTenantAccess db tenantId userId with
  | .error e => (db, .error e)
  | .ok member =>
    if member.role = .OWNER then
      (db, .error (.badRequest "Owner cannot leave tenant. Transfer ownership first."))
    else
      ({ db with tenantUsers :=
          db.tenantUsers.filter (fun tu => decide (tu.id ≠ member.id)) },
       .ok ())

/-- `TenantService.inviteUser`: permission and duplicate-membership checks,
then one transaction creating the user row if absent and an inactive
membership with the requested role. -/
def inviteUser (db : Db) (tenantId inviterId : Uid) (dto : InviteUserDto)
    (now : Nat) : Db × Except AuthErr Unit :=
  match verifyTenantAccess db tenantId inviterId with
  | .error e => (db, .error e)
  | .ok inviter =>
    if ¬(inviter.role = .OWNER ∨ inviter.role = .ADMIN) then
      (db, .error (.forbidden "Only owners and admins can invite users"))
    else
      match findUserByEmail db dto.email with
      | some user =>
        match findTenantUser db tenantId user.id with
        | some _ => (db, .error (.conflict "User is already a member of this tenant"))
        | none =>
          let tu : TenantUser :=
            { id := db.nextId, tenantId := tenantId, userId := user.id
              role := dto.role, permissions := dto.permissions.getD []
              isActive := false, invitedBy := some inviterId, invitedAt := some now }
          ({ db with tenantUsers := tu :: db.tenantUsers, nextId := db.nextId + 1 },
           .ok ())
      | none =>
        let newUser : User :=
          { id := db.nextId, email := dto.email, passwordHash := none, salt := none
            firstName := none, lastName := none, isActive := true
            isVerified := false, emailVerified := false, defaultTenantId := none
            lastLoginAt := none }
        let tu : TenantUser :=
          { id := db.nextId + 1, tenantId := tenantId, userId := newUser.id
            role := dto.role, permissions := dto.permissions.getD []
            isActive := false, invitedBy := some inviterId, invitedAt := some now }
        ({ db with users := newUser :: db.users
                   tenantUsers := tu :: db.tenantUsers, nextId := db.nextId + 2 },
         .ok ())

/-- Whether a membership row is an OWNER row of tenant `t`. -/
def isOwnerRow (t : Uid) (tu : TenantUser) : Bool :=
  tu.tenantId == t && tu.role == TenantRole.OWNER

/-- The membership rows of tenant `t` holding role OWNER. -/
def ownersOf (db : Db) (t : Uid) : List TenantUser :=
  db.tenantUsers.filter (isOwnerRow t)

/-- Number of OWNER memberships of tenant `t`. -/
def ownersCount (db : Db) (t : Uid) : Nat :=
  (ownersOf db t).length

/-- Database well-formedness: membership row ids are pairwise distinct
(they are unique keys in the schema). -/
def Db.WF (db : Db) : Prop :=
  (db.tenantUsers.map TenantUser.id).Nodup

theorem alookup_cons {κ ν : Type} [DecidableEq κ] (k k' : κ) (v : ν)
    (l : List (κ × ν)) :
    alookup k ((k', v) :: l) = if k' = k then some v else alookup k l := rfl

theorem alookup_mem {κ ν : Type} [DecidableEq κ] {k : κ} {v : ν}
    {l : List (κ × ν)} (h : alookup k l = some v) : (k, v) ∈ l := by
  induction l with
  | nil => simp [alookup] at h
  | cons p rest ih =>
      obtain ⟨k', v'⟩ := p
      rw [alookup_cons] at h
      by_cases hk : k' = k
      · rw [if_pos hk] at h
        obtain rfl := Option.some.inj h
        subst hk
        exact List.mem_cons_self _ _
      · rw [if_neg hk] at h
        exact List.mem_cons_of_mem _ (ih h)

theorem alookup_adelete_self {κ ν : Type} [DecidableEq κ] (k : κ)
    (l : List (κ × ν)) : alookup k (adelete k l) = none := by
  induction l with
  | nil => rfl
  | cons p rest ih =>
      obtain ⟨k', v'⟩ := p
      by_cases hk : k' = k
      · simpa [adelete, hk] using ih
      · simp [adelete, hk, alookup_cons, ih]

theorem alookup_none_of_not_mem {κ ν : Type} [DecidableEq κ] {k : κ}
    {l : List (κ × ν)} (h : k ∉ l.map Prod.fst) : alookup k l = none := by
  induction l with
  | nil => rfl
  | cons p rest ih =>
      obtain ⟨k', v'⟩ := p
      simp only [List.map_cons, List.mem_cons, not_or] at h
      rw [alookup_cons, if_neg (fun hh => h.1 hh.symm), ih h.2]

theorem alookup_filter {κ ν : Type} [DecidableEq κ] (q : κ × ν → Bool)
    {l : List (κ × ν)} (hnd : (l.map Prod.fst).Nodup) (k : κ) (v : ν) :
    alookup k (l.filter q) = some v ↔
      (alookup k l = some v ∧ q (k, v) = true) := by
  induction l with
  | nil => simp [alookup]
  | cons p rest ih =>
      obtain ⟨k', v'⟩ := p
      simp only [List.map_cons, List.nodup_cons] at hnd
      obtain ⟨hk', hndr⟩ := hnd
      by_cases hk : k' = k
      · subst hk
        by_cases hq : q (k', v') = true
        · simp only [List.filter_cons, hq, if_true, alookup_cons, if_pos rfl]
          constructor
          · intro h
            obtain rfl := Option.some.inj h
            exact ⟨rfl, hq⟩
          · intro h
            exact h.1
        · have hsub : ((rest.filter q).map Prod.fst) ⊆ rest.map Prod.fst :=
            ((List.filter_sublist rest).map Prod.fst).subset
          have hnone : alookup k' (rest.filter q) = none :=
            alookup_none_of_not_mem (fun hin => hk' (hsub hin))
          simp only [List.filter_cons, hq, if_false, hnone, alookup_cons,
            if_pos rfl, Bool.false_eq_true]
          constructor
          · intro h; cases h
          · intro h
            obtain rfl := Option.some.inj h.1
            exact absurd h.2 hq
      · simp only [List.filter_cons, alookup_cons, if_neg hk]
        by_cases hq : q (k', v') = true
        · simp only [hq, if_true, alookup_cons, if_neg hk]
          exact ih hndr
        · simp only [hq, if_false]
          exact ih hndr

theorem generateTokens_access (st : RedisStore) (u : Uid) (e : String)
    (t : Option Uid) (r : Option TenantRole) (p : List String) (now : Nat) :
    (generateTokens st u e t r p now).1.accessToken =
      ⟨{ sub := u, email := e, tenantId := t, role := r, permissions := p
         sessionId := st.nextSessionId, tokenType := .access, iat := now
         exp := now + accessTokenExpiry }, .accessSecret⟩ := rfl

theorem generateTokens_refresh (st : RedisStore) (u : Uid) (e : String)
    (t : Option Uid) (r : Option TenantRole) (p : List String) (now : Nat) :
    (generateTokens st u e t r p now).1.refreshToken =
      ⟨{ sub := u, email := e, tenantId := t, role := r, permissions := p
         sessionId := st.nextSessionId, tokenType := .refresh, iat := now
         exp := now + refreshTokenExpiry }, .refreshSecret⟩ := rfl

theorem generateTokens_snd (st : RedisStore) (u : Uid) (e : String)
    (t : Option Uid) (r : Option TenantRole) (p : List String) (now : Nat) :
    (generateTokens st u e t r p now).2 =
      { sessions := (st.nextSessionId,
          { userId := u, tenantId := t, sessionId := st.nextSessionId
            expiresAt := now + refreshTokenExpiry }) :: st.sessions
        refreshRecords :=
          ((generateTokens st u e t r p now).1.refreshToken,
            ⟨u, st.nextSessionId⟩) :: st.refreshRecords
        nextSessionId := st.nextSessionId + 1 } := rfl

/-- C2: every access token minted by `generateTokens` verifies while its
TTL has not elapsed and its session record exists; verification fails with
the `InvalidToken`-class error (`jwtInvalid`) when the signing key is wrong
or the TTL has elapsed; and after `revokeSession` of its session id it
fails with the distinct error `sessionInvalid` (the spec's
`SessionExpired`) even though the signature still verifies. -/
theorem c2_access_verification
    (st st2 : RedisStore) (u : Uid) (e : String) (t : Option Uid)
    (r : Option TenantRole) (p : List String) (now now2 : Nat) (s : SessionData)
    (hfresh : now2 < (generateTokens st u e t r p now).1.accessToken.payload.exp)
    (hlive : alookup (generateTokens st u e t r p now).1.accessToken.payload.sessionId
      st2.sessions = some s) :
    verifyAccessToken st2 (generateTokens st u e t r p now).1.accessToken now2 =
      .ok (generateTokens st u e t r p now).1.accessToken.payload ∧
    (∀ n, (generateTokens st u e t r p now).1.accessToken.payload.exp ≤ n →
      verifyAccessToken st2 (generateTokens st u e t r p now).1.accessToken n =
        .error .jwtInvalid) ∧
    (∀ tok : SignedToken, tok.key ≠ .accessSecret →
      ∀ st3 n, verifyAccessToken st3 tok n = .error .jwtInvalid) ∧
    verifyAccessToken
      (revokeSession st2 (generateTokens st u e t r p now).1.accessToken.payload.sessionId)
      (generateTokens st u e t r p now).1.accessToken now2 =
        .error .sessionInvalid ∧
    TokenErr.sessionInvalid ≠ TokenErr.jwtInvalid := by
  have hkey : (generateTokens st u e t r p now).1.accessToken.key = .accessSecret := rfl
  refine ⟨?_, ?_, ?_, ?_, by decide⟩
  · simp [verifyAccessToken, jwtVerify, hkey, hfresh, hlive]
  · intro n hn
    simp [verifyAccessToken, jwtVerify, Nat.not_lt.mpr hn]
  · intro tok hk st3 n
    simp [verifyAccessToken, jwtVerify, hk]
  · simp [verifyAccessToken, jwtVerify, revokeSession, hkey, hfresh,
      alookup_adelete_self]

/-- Witness for C2 at a concrete state: the freshly generated store itself
holds the session record. -/
theorem c2_access_verification_witness :
    verifyAccessToken (generateTokens ⟨[], [], 0⟩ 1 "a@x.com" (some 7) (some .OWNER) [] 100).2
      (generateTokens ⟨[], [], 0⟩ 1 "a@x.com" (some 7) (some .OWNER) [] 100).1.accessToken 200 =
      .ok (generateTokens ⟨[], [], 0⟩ 1 "a@x.com" (some 7) (some .OWNER) [] 100).1.accessToken.payload ∧
    verifyAccessToken
      (revokeSession (generateTokens ⟨[], [], 0⟩ 1 "a@x.com" (some 7) (some .OWNER) [] 100).2
        (generateTokens ⟨[], [], 0⟩ 1 "a@x.com" (some 7) (some .OWNER) [] 100).1.accessToken.payload.sessionId)
      (generateTokens ⟨[], [], 0⟩ 1 "a@x.com" (some 7) (some .OWNER) [] 100).1.accessToken 200 =
      .error .sessionInvalid := by
  have h := c2_access_verification ⟨[], [], 0⟩
    (generateTokens ⟨[], [], 0⟩ 1 "a@x.com" (some 7) (some .OWNER) [] 100).2
    1 "a@x.com" (some 7) (some .OWNER) [] 100 200
    { userId := 1, tenantId := some 7, sessionId := 0, expiresAt := 604900 }
    (by decide) (by decide)
  exact ⟨h.1, h.2.2.2.1⟩

/-- C10: `revokeAllUserSessions(userId)` deletes exactly the session
records whose stored `userId` matches, leaves the `refresh:*` keyspace
untouched, and therefore never changes the outcome of
`verifyRefreshToken`, which reads only the signature and the refresh
record. -/
theorem c10_revoke_all_sessions_frame
    (st : RedisStore) (uid : Uid)
    (hnd : (st.sessions.map Prod.fst).Nodup) :
    (∀ k v, alookup k (revokeAllUserSessions st uid).sessions = some v ↔
      (alookup k st.sessions = some v ∧ v.userId ≠ uid)) ∧
    (revokeAllUserSessions st uid).refreshRecords = st.refreshRecords ∧
    (∀ tok now, verifyRefreshToken (revokeAllUserSessions st uid) tok now =
      verifyRefreshToken st tok now) := by
  refine ⟨?_, rfl, fun tok now => rfl⟩
  intro k v
  unfold revokeAllUserSessions
  rw [alookup_filter _ hnd]
  simp

/-- Witness for C10: a store holding one session of user 1 and one of
user 2, plus a refresh record of user 1; revoking user 1 keeps user 2's
session, drops user 1's, and still verifies user 1's refresh token. -/
theorem c10_revoke_all_sessions_frame_witness :
    (alookup 0 (revokeAllUserSessions
        (generateTokens (generateTokens ⟨[], [], 0⟩ 1 "a@x.com" none none [] 0).2
          2 "b@x.com" none none [] 0).2 1).sessions = none) ∧
    (alookup 1 (revokeAllUserSessions
        (generateTokens (generateTokens ⟨[], [], 0⟩ 1 "a@x.com" none none [] 0).2
          2 "b@x.com" none none [] 0).2 1).sessions =
      some { userId := 2, tenantId := none, sessionId := 1, expiresAt := 604800 }) ∧
    verifyRefreshToken (revokeAllUserSessions
        (generateTokens (generateTokens ⟨[], [], 0⟩ 1 "a@x.com" none none [] 0).2
          2 "b@x.com" none none [] 0).2 1)
      (generateTokens ⟨[], [], 0⟩ 1 "a@x.com" none none [] 0).1.refreshToken 100 =
      .ok (generateTokens ⟨[], [], 0⟩ 1 "a@x.com" none none [] 0).1.refreshToken.payload := by
  have h := c10_revoke_all_sessions_frame
    (generateTokens (generateTokens ⟨[], [], 0⟩ 1 "a@x.com" none none [] 0).2
      2 "b@x.com" none none [] 0).2 1 (by decide)
  refine ⟨?_, ?_, ?_⟩
  · rfl
  · exact (h.1 1 { userId := 2, tenantId := none, sessionId := 1, expiresAt := 604800 }).mpr
      ⟨by rfl, by decide⟩
  · rw [h.2.2]
    rfl

/-- C1: refresh tokens are single-use. Under a well-formed store, when
`refreshToken` succeeds on a raw refresh-token string, a second call with
the identical string (still inside the token's own TTL, e.g. in the same
millisecond) fails with the `InvalidToken`-class error (`refreshRevoked`,
the source's `Refresh token is invalid or revoked`): the successful call
revoked the old session and deleted the consumed refresh record before
minting the new pair, and the new pair carries a fresh session id, so it
cannot recreate the consumed record. -/
theorem c1_refresh_single_use
    (db : Db) (st : RedisStore) (dto : RefreshTokenDto) (now now2 : Nat)
    (d : RefreshData) (user : User)
    (hWF : st.WF)
    (hkey : dto.refreshToken.key = .refreshSecret)
    (hexp : now < dto.refreshToken.payload.exp)
    (hrec : alookup dto.refreshToken st.refreshRecords = some d)
    (huser : findUserById db dto.refreshToken.payload.sub = some user)
    (hactive : user.isActive = true)
    (hexp2 : now2 < dto.refreshToken.payload.exp) :
    (refreshTokenOp db st dto now).isOk = true ∧
    (∀ r : AuthResult, refreshTokenOp db st dto now = .ok r →
      refreshTokenOp r.db r.redis dto now2 = .error (.tokenErr .refreshRevoked)) := by
  have hver : verifyRefreshToken st dto.refreshToken now = .ok dto.refreshToken.payload := by
    simp [verifyRefreshToken, jwtVerify, hkey, hexp, hrec]
  have hlt : dto.refreshToken.payload.sessionId < st.nextSessionId :=
    hWF.2.1 _ (alookup_mem hrec)
  have hlook : ∀ (t : Option Uid) (r : Option TenantRole) (p : List String),
      alookup dto.refreshToken
        (generateTokens
          (revokeRefreshTok (revokeSession st dto.refreshToken.payload.sessionId)
            dto.refreshToken)
          user.id user.email t r p now).2.refreshRecords = none := by
    intro t r p
    rw [generateTokens_snd, alookup_cons, if_neg]
    · simp [revokeRefreshTok, revokeSession, alookup_adelete_self]
    · intro heq
      have hsid := congrArg (fun tk : SignedToken => tk.payload.sessionId) heq
      simp only [generateTokens_refresh] at hsid
      exact absurd (hsid ▸ hlt) (Nat.lt_irrefl _)
  have hver2 : ∀ (t : Option Uid) (r : Option TenantRole) (p : List String),
      verifyRefreshToken
        (generateTokens
          (revokeRefreshTok (revokeSession st dto.refreshToken.payload.sessionId)
            dto.refreshToken)
          user.id user.email t r p now).2 dto.refreshToken now2 =
        .error .refreshRevoked := by
    intro t r p
    simp [verifyRefreshToken, jwtVerify, hkey, hexp2, hlook t r p]
  constructor
  · simp only [refreshTokenOp, hver, huser, hactive]
    rw [if_neg (by simp)]
    rfl
  · intro r hr
    simp only [refreshTokenOp, hver, huser, hactive] at hr
    rw [if_neg (by simp)] at hr
    obtain rfl := (Except.ok.inj hr).symm
    simp only [refreshTokenOp, hver2]

/-- Concrete user row for the C1 witness. -/
def c1User : User :=
  { id := 1, email := "u@x.com", passwordHash := some (bcryptHash "s1" "oldpw")
    salt := some "s1", firstName := some "U", lastName := some "Ser"
    isActive := true, isVerified := true, emailVerified := true
    defaultTenantId := none, lastLoginAt := none }

/-- Concrete database for the C1 witness. -/
def c1Db : Db :=
  { users := [c1User], tenants := [], tenantUsers := [], passwordResets := []
    nextId := 10 }

/-- Concrete Redis state for the C1 witness: the state just after the
user's tokens were minted. -/
def c1St : RedisStore :=
  (generateTokens ⟨[], [], 0⟩ 1 "u@x.com" none none [] 0).2

/-- Concrete refresh request for the C1 witness. -/
def c1Dto : RefreshTokenDto :=
  { refreshToken := (generateTokens ⟨[], [], 0⟩ 1 "u@x.com" none none [] 0).1.refreshToken
    tenantId := none }

/-- The concrete result of the first refresh call in the C1 witness. -/
def c1FirstResult : AuthResult :=
  { db := c1Db
    redis := (generateTokens ⟨[], [], 1⟩ 1 "u@x.com" none (some .MEMBER) [] 0).2
    tokens := (generateTokens ⟨[], [], 1⟩ 1 "u@x.com" none (some .MEMBER) [] 0).1
    tenant := none }

/-- Witness for C1: the refresh succeeds once on the concrete store and
fails with the revoked-refresh error immediately after, in the same
instant. -/
theorem c1_refresh_single_use_witness :
    refreshTokenOp c1Db c1St c1Dto 0 = .ok c1FirstResult ∧
    refreshTokenOp c1FirstResult.db c1FirstResult.redis c1Dto 0 =
      .error (.tokenErr .refreshRevoked) :=
  ⟨by rfl,
   (c1_refresh_single_use c1Db c1St c1Dto 0 0 ⟨1, 0⟩ c1User
      (by refine ⟨?_, ?_, ?_⟩ <;> decide)
      rfl (by decide) rfl rfl rfl (by decide)).2 c1FirstResult (by rfl)⟩

theorem verifyAccessToken_valid {tok : SignedToken} {now : Nat}
    (h : tok.key = SigningKey.accessSecret ∧ now < tok.payload.exp)
    (st : RedisStore) :
    verifyAccessToken st tok now =
      match alookup tok.payload.sessionId st.sessions with
      | some _ => .ok tok.payload
      | none => .error .sessionInvalid := by
  unfold verifyAccessToken jwtVerify
  rw [if_pos h]

theorem verifyAccessToken_invalid {tok : SignedToken} {now : Nat}
    (h : ¬(tok.key = SigningKey.accessSecret ∧ now < tok.payload.exp))
    (st : RedisStore) :
    verifyAccessToken st tok now = .error .jwtInvalid := by
  unfold verifyAccessToken jwtVerify
  rw [if_neg h]

/-- C9: `switchTenant(userId, tenantId)` fails `Unauthorized` unless an
active membership exists for `(tenantId, userId)`; on success it mints a
fresh pair scoped to the new tenant and the membership's role while
leaving every previously stored session record untouched, so access
tokens of older sessions still verify afterwards. -/
theorem c9_switch_tenant
    (db : Db) (st : RedisStore) (userId : Uid) (dto : SwitchTenantDto)
    (now : Nat) (tu : TenantUser) (user : User)
    (hWF : st.WF)
    (htu : findTenantUser db dto.tenantId userId = some tu)
    (hact : tu.isActive = true)
    (huser : findUserById db userId = some user) :
    (switchTenant db st userId dto now).isOk = true ∧
    (∀ r : AuthResult, switchTenant db st userId dto now = .ok r →
      r.tokens.accessToken.payload.tenantId = some dto.tenantId ∧
      r.tokens.accessToken.payload.role = some tu.role ∧
      (∀ k v, alookup k st.sessions = some v → alookup k r.redis.sessions = some v) ∧
      (∀ tok now2 pl, verifyAccessToken st tok now2 = .ok pl →
        verifyAccessToken r.redis tok now2 = .ok pl)) ∧
    (∀ (db2 : Db) (st2 : RedisStore) (uid2 : Uid) (dto2 : SwitchTenantDto)
        (now2 : Nat),
      findTenantUser db2 dto2.tenantId uid2 = none →
      switchTenant db2 st2 uid2 dto2 now2 =
        .error (.unauthorizedErr "Access to this tenant is denied")) ∧
    (∀ (db2 : Db) (st2 : RedisStore) (uid2 : Uid) (dto2 : SwitchTenantDto)
        (now2 : Nat) (tu2 : TenantUser),
      findTenantUser db2 dto2.tenantId uid2 = some tu2 → tu2.isActive = false →
      switchTenant db2 st2 uid2 dto2 now2 =
        .error (.unauthorizedErr "Access to this tenant is denied")) := by
  refine ⟨?_, ?_, ?_, ?_⟩
  · simp only [switchTenant, htu, huser]
    rw [if_neg (by simp [hact])]
    rfl
  · intro r hr
    simp only [switchTenant, htu, huser] at hr
    rw [if_neg (by simp [hact])] at hr
    obtain rfl := (Except.ok.inj hr).symm
    refine ⟨rfl, rfl, ?_, ?_⟩
    · intro k v hk
      have hne : st.nextSessionId ≠ k := fun he =>
        absurd (he ▸ hWF.1 _ (alookup_mem hk)) (Nat.lt_irrefl _)
      simp only [generateTokens_snd, alookup_cons, if_neg hne]
      exact hk
    · intro tok now2 pl hok
      by_cases hjwt : tok.key = SigningKey.accessSecret ∧ now2 < tok.payload.exp
      · rw [verifyAccessToken_valid hjwt] at hok ⊢
        cases hlk : alookup tok.payload.sessionId st.sessions with
        | none =>
            simp only [hlk] at hok
            exact Except.noConfusion hok
        | some s =>
            simp only [hlk] at hok
            have hne : st.nextSessionId ≠ tok.payload.sessionId := fun he =>
              absurd (he ▸ hWF.1 _ (alookup_mem hlk)) (Nat.lt_irrefl _)
            simp only [generateTokens_snd, alookup_cons, if_neg hne, hlk]
            exact hok
      · rw [verifyAccessToken_invalid hjwt] at hok
        exact Except.noConfusion hok
  · intro db2 st2 uid2 dto2 now2 h
    simp [switchTenant, h]
  · intro db2 st2 uid2 dto2 now2 tu2 h hin
    simp [switchTenant, h, hin]

/-- The membership row of the C9 witness: user 1 is an active ADMIN of
tenant 7. -/
def c9TenantUser : TenantUser :=
  { id := 5, tenantId := 7, userId := 1, role := .ADMIN, permissions := ["p1"]
    isActive := true, invitedBy := none, invitedAt := none }

/-- Concrete database for the C9 witness. -/
def c9Db : Db :=
  { users := [c1User], tenants := [], tenantUsers := [c9TenantUser]
    passwordResets := [], nextId := 20 }

/-- The concrete result of the C9 switch call. -/
def c9Result : AuthResult :=
  { db := c9Db
    redis := (generateTokens c1St 1 "u@x.com" (some 7) (some .ADMIN) ["p1"] 50).2
    tokens := (generateTokens c1St 1 "u@x.com" (some 7) (some .ADMIN) ["p1"] 50).1
    tenant := some 7 }

/-- Witness for C9: the concrete tenant switch succeeds with tokens scoped
to tenant 7 / role ADMIN, the pre-existing session record survives, and
the old access token still verifies in the post-state. -/
theorem c9_switch_tenant_witness :
    switchTenant c9Db c1St 1 ⟨7⟩ 50 = .ok c9Result ∧
    c9Result.tokens.accessToken.payload.tenantId = some 7 ∧
    c9Result.tokens.accessToken.payload.role = some TenantRole.ADMIN ∧
    alookup 0 c9Result.redis.sessions =
      some { userId := 1, tenantId := none, sessionId := 0, expiresAt := 604800 } ∧
    verifyAccessToken c9Result.redis
      (generateTokens ⟨[], [], 0⟩ 1 "u@x.com" none none [] 0).1.accessToken 100 =
      .ok (generateTokens ⟨[], [], 0⟩ 1 "u@x.com" none none [] 0).1.accessToken.payload := by
  have h := c9_switch_tenant c9Db c1St 1 ⟨7⟩ 50 c9TenantUser c1User
    (by refine ⟨?_, ?_, ?_⟩ <;> decide) rfl rfl rfl
  have hparts := h.2.1 c9Result (by rfl)
  refine ⟨by rfl, hparts.1, hparts.2.1, ?_, ?_⟩
  · exact hparts.2.2.1 0 _ (by rfl)
  · exact hparts.2.2.2 _ 100 _ (by rfl)

/-- The database state after the C3 password change: the stored hash and
salt were rotated. -/
def c3AfterDb : Db :=
  { users := [{ c1User with
      passwordHash := some (bcryptHash "s2" "Newpw1"), salt := some "s2" }]
    tenants := [], tenantUsers := [], passwordResets := [], nextId := 10 }

/-- The Redis state after the C3 password change: sessions of user 1 are
deleted, refresh records are untouched. -/
def c3AfterSt : RedisStore := revokeAllUserSessions c1St 1

/-- C3 (divergence witness): `changePassword` succeeds for the concrete
user yet the refresh token minted before the change still verifies
afterwards — `revokeAllUserSessions` deletes only `session:*` records and
`verifyRefreshToken` consults only the `refresh:*` record — and the whole
refresh flow even mints a fresh pair from the stale refresh token. Only
the access token dies (`sessionInvalid`). This contradicts the claim that
every previously minted token fails verification after a password
change. -/
theorem c3_password_change_keeps_refresh_alive :
    changePassword c1Db c1St 1 ⟨"oldpw", "Newpw1"⟩ "s2" = .ok (c3AfterDb, c3AfterSt) ∧
    verifyRefreshToken c3AfterSt c1Dto.refreshToken 100 =
      .ok c1Dto.refreshToken.payload ∧
    (refreshTokenOp c3AfterDb c3AfterSt c1Dto 100).isOk = true ∧
    verifyAccessToken c3AfterSt
      (generateTokens ⟨[], [], 0⟩ 1 "u@x.com" none none [] 0).1.accessToken 100 =
      .error .sessionInvalid := by
  refine ⟨by rfl, by rfl, by rfl, by rfl⟩

/-- C5: `register` fails `Conflict` when a user with the email exists;
otherwise (with a fresh tenant slug, so the transaction commits) it
creates the Tenant, the User defaulting to that tenant, and an active
OWNER membership — all three in the one committed state, the shallow form
of the all-or-nothing transaction — and mints tokens scoped to that
tenant with role OWNER. -/
theorem c5_register
    (db : Db) (st : RedisStore) (dto : RegisterDto) (salt rand : String)
    (now : Nat) :
    (∀ u, findUserByEmail db dto.email = some u →
      register db st dto salt rand now =
        .error (.conflict "User with this email already exists")) ∧
    (findUserByEmail db dto.email = none →
      db.tenants.any (fun t =>
        t.slug == dto.tenantSlug.getD (dto.firstName.toLower ++ "-" ++ rand)) = false →
      (register db st dto salt rand now).isOk = true ∧
      (∀ r, register db st dto salt rand now = .ok r →
        (∃ tenant ∈ r.db.tenants, tenant.id = db.nextId) ∧
        (∃ user ∈ r.db.users, user.id = db.nextId + 1 ∧ user.email = dto.email ∧
          user.defaultTenantId = some db.nextId ∧
          user.passwordHash = some (bcryptHash salt dto.password)) ∧
        (∃ tu ∈ r.db.tenantUsers, tu.tenantId = db.nextId ∧
          tu.userId = db.nextId + 1 ∧ tu.role = TenantRole.OWNER ∧
          tu.isActive = true) ∧
        r.tokens.accessToken.payload.tenantId = some db.nextId ∧
        r.tokens.accessToken.payload.role = some TenantRole.OWNER ∧
        r.tokens.accessToken.payload.sub = db.nextId + 1)) := by
  constructor
  · intro u hu
    simp [register, hu]
  · intro hnone hslug
    constructor
    · simp only [register, hnone]
      rw [if_neg (by simp [hslug])]
      rfl
    · intro r hr
      simp only [register, hnone] at hr
      rw [if_neg (by simp [hslug])] at hr
      obtain rfl := (Except.ok.inj hr).symm
      exact ⟨⟨_, List.mem_cons_self _ _, rfl⟩,
        ⟨_, List.mem_cons_self _ _, rfl, rfl, rfl, rfl⟩,
        ⟨_, List.mem_cons_self _ _, rfl, rfl, rfl, rfl⟩, rfl, rfl, rfl⟩

/-- The empty database. -/
def emptyDb : Db :=
  { users := [], tenants := [], tenantUsers := [], passwordResets := []
    nextId := 0 }

/-- Concrete registration request for the C5 witness. -/
def c5Dto : RegisterDto :=
  { email := "a@x.com", password := "P@ssw0rd1", firstName := "Ann"
    lastName := "Lee", tenantSlug := some "ann", tenantName := some "Workspace" }

/-- A database that already holds a user with the C5 email. -/
def c5TakenDb : Db :=
  { users := [{ c1User with email := "a@x.com" }], tenants := []
    tenantUsers := [], passwordResets := [], nextId := 9 }

/-- Witness for C5: registration succeeds on the empty database and fails
with `Conflict` once the email is taken. -/
theorem c5_register_witness :
    (register emptyDb ⟨[], [], 0⟩ c5Dto "s" "zzzz" 0).isOk = true ∧
    register c5TakenDb ⟨[], [], 0⟩ c5Dto "s" "zzzz" 0 =
      .error (.conflict "User with this email already exists") := by
  have h := c5_register emptyDb ⟨[], [], 0⟩ c5Dto "s" "zzzz" 0
  have h2 := c5_register c5TakenDb ⟨[], [], 0⟩ c5Dto "s" "zzzz" 0
  exact ⟨(h.2 rfl rfl).1, h2.1 { c1User with email := "a@x.com" } rfl⟩

/-- C7: enumeration resistance of `login` and `forgotPassword`. A missing
user, an inactive user, and a wrong password all produce the identical
`UnauthorizedException('Invalid credentials')`; only the password-less
OAuth-only account gets a distinct message; and `forgotPassword` reports
success whether or not the email exists, so the caller-visible responses
for "unknown user" and "wrong credentials" are indistinguishable. -/
theorem c7_enumeration_resistance
    (db : Db) (st : RedisStore) (now : Nat) :
    (∀ dto : LoginDto, findUserByEmail db dto.email = none →
      login db st dto now = .error (.unauthorizedErr "Invalid credentials")) ∧
    (∀ (dto : LoginDto) (u : User), findUserByEmail db dto.email = some u →
      u.isActive = false →
      login db st dto now = .error (.unauthorizedErr "Invalid credentials")) ∧
    (∀ (dto : LoginDto) (u : User) (h : HashedPassword),
      findUserByEmail db dto.email = some u → u.isActive = true →
      u.passwordHash = some h → bcryptCompare dto.password h = false →
      login db st dto now = .error (.unauthorizedErr "Invalid credentials")) ∧
    (∀ (dto : LoginDto) (u : User), findUserByEmail db dto.email = some u →
      u.isActive = true → u.passwordHash = none →
      login db st dto now = .error (.unauthorizedErr
        "This account uses OAuth. Please login with your OAuth provider.")) ∧
    (∀ (dto1 dto2 : LoginDto) (u : User) (h : HashedPassword),
      findUserByEmail db dto1.email = none →
      findUserByEmail db dto2.email = some u → u.isActive = true →
      u.passwordHash = some h → bcryptCompare dto2.password h = false →
      login db st dto1 now = login db st dto2 now) ∧
    (∀ (dto : ForgotPasswordDto) (resetTok : String),
      (forgotPassword db dto resetTok now).2 = .ok ()) := by
  have hmiss : ∀ dto : LoginDto, findUserByEmail db dto.email = none →
      login db st dto now = .error (.unauthorizedErr "Invalid credentials") := by
    intro dto hnone
    simp [login, hnone]
  have hwrong : ∀ (dto : LoginDto) (u : User) (h : HashedPassword),
      findUserByEmail db dto.email = some u → u.isActive = true →
      u.passwordHash = some h → bcryptCompare dto.password h = false →
      login db st dto now = .error (.unauthorizedErr "Invalid credentials") := by
    intro dto u h hu hact hhash hcmp
    simp [login, hu, hact, hhash, hcmp]
  refine ⟨hmiss, ?_, hwrong, ?_, ?_, ?_⟩
  · intro dto u hu hinact
    simp [login, hu, hinact]
  · intro dto u hu hact hhash
    simp [login, hu, hact, hhash]
  · intro dto1 dto2 u h h1 h2 hact hhash hcmp
    rw [hmiss dto1 h1, hwrong dto2 u h h2 hact hhash hcmp]
  · intro dto resetTok
    unfold forgotPassword
    cases findUserByEmail db dto.email <;> rfl

/-- Witness for C7 at concrete inputs: unknown email and wrong password
give the same error on a one-user database, the OAuth-only account gets
its distinct message, and forgotPassword reports success both for a
missing and for an existing email. -/
theorem c7_enumeration_resistance_witness :
    login c1Db ⟨[], [], 0⟩ ⟨"ghost@x.com", "whatever", none⟩ 3 =
      login c1Db ⟨[], [], 0⟩ ⟨"u@x.com", "wrongpw", none⟩ 3 ∧
    login c1Db ⟨[], [], 0⟩ ⟨"ghost@x.com", "whatever", none⟩ 3 =
      .error (.unauthorizedErr "Invalid credentials") ∧
    login { c1Db with users := [{ c1User with passwordHash := none }] }
      ⟨[], [], 0⟩ ⟨"u@x.com", "whatever", none⟩ 3 =
      .error (.unauthorizedErr
        "This account uses OAuth. Please login with your OAuth provider.") ∧
    (forgotPassword c1Db ⟨"ghost@x.com"⟩ "tok" 3).2 = .ok () ∧
    (forgotPassword c1Db ⟨"u@x.com"⟩ "tok" 3).2 = .ok () := by
  have h := c7_enumeration_resistance c1Db ⟨[], [], 0⟩ 3
  refine ⟨?_, ?_, ?_, ?_, ?_⟩
  · exact h.2.2.2.2.1 ⟨"ghost@x.com", "whatever", none⟩ ⟨"u@x.com", "wrongpw", none⟩
      c1User (bcryptHash "s1" "oldpw") rfl rfl rfl rfl (by decide)
  · exact h.1 ⟨"ghost@x.com", "whatever", none⟩ rfl
  · have h2 := c7_enumeration_resistance
      { c1Db with users := [{ c1User with passwordHash := none }] } ⟨[], [], 0⟩ 3
    exact h2.2.2.2.1 ⟨"u@x.com", "whatever", none⟩ { c1User with passwordHash := none }
      rfl rfl rfl
  · exact h.2.2.2.2.2 ⟨"ghost@x.com"⟩ "tok"
  · exact h.2.2.2.2.2 ⟨"u@x.com"⟩ "tok"

/-- The tenant-context resolution as the spec words it: the explicitly
supplied tenantId only if the user is an active member of that tenant,
else the user's default tenant, else the first active membership. Stated
only to compare with the source's `loginResolveTenant`. -/
def specResolveTenant (db : Db) (user : User) (requested : Option Uid) :
    Option Uid :=
  let fallback :=
    match user.defaultTenantId with
    | some dtid => some dtid
    | none => (activeMemberships db user.id).head?.map (fun tu => tu.tenantId)
  match requested with
  | some tid =>
      if (activeMemberships db user.id).any (fun tu => tu.tenantId == tid)
      then some tid else fallback
  | none => fallback

/-- A reduction lemma for the success path of `login`. -/
theorem login_ok_reduction
    (db : Db) (st : RedisStore) (dto : LoginDto) (now : Nat) (u : User)
    (h : HashedPassword)
    (hfind : findUserByEmail db dto.email = some u)
    (hact : u.isActive = true)
    (hhash : u.passwordHash = some h)
    (hcmp : bcryptCompare dto.password h = true) :
    login db st dto now = .ok
      { db := { db with users := db.users.map (fun x =>
          if x.id == u.id then { x with lastLoginAt := some now } else x) }
        redis := (generateTokens st u.id u.email
          (loginResolveTenant db u dto.tenantId).1
          (some (loginResolveTenant db u dto.tenantId).2.1)
          (loginResolveTenant db u dto.tenantId).2.2 now).2
        tokens := (generateTokens st u.id u.email
          (loginResolveTenant db u dto.tenantId).1
          (some (loginResolveTenant db u dto.tenantId).2.1)
          (loginResolveTenant db u dto.tenantId).2.2 now).1
        tenant :=
          match (loginResolveTenant db u dto.tenantId).1 with
          | some tid =>
              if (activeMemberships db u.id).any (fun tu => tu.tenantId == tid)
              then some tid else none
          | none => none } := by
  simp only [login, hfind, hhash]
  rw [if_neg (by simp [hact]), if_neg (by simp [hcmp])]

/-- User fixture for the C6 counterexample: default tenant 7. -/
def c6User : User :=
  { id := 1, email := "a@x.com", passwordHash := some (bcryptHash "s" "P@ssw0rd1")
    salt := some "s", firstName := some "Ann", lastName := none
    isActive := true, isVerified := true, emailVerified := true
    defaultTenantId := some 7, lastLoginAt := none }

/-- Membership fixture for the C6 counterexample: user 1 owns tenant 7. -/
def c6TenantUser : TenantUser :=
  { id := 3, tenantId := 7, userId := 1, role := .OWNER, permissions := []
    isActive := true, invitedBy := none, invitedAt := none }

/-- Database fixture for the C6 counterexample. -/
def c6Db : Db :=
  { users := [c6User], tenants := [], tenantUsers := [c6TenantUser]
    passwordResets := [], nextId := 10 }

/-- Login request naming tenant 99, of which user 1 is no member. -/
def c6Dto : LoginDto :=
  { email := "a@x.com", password := "P@ssw0rd1", tenantId := some 99 }

/-- The concrete result the source's login computes for `c6Dto`. -/
def c6Result : AuthResult :=
  { db := { c6Db with users := [{ c6User with lastLoginAt := some 0 }] }
    redis := (generateTokens ⟨[], [], 0⟩ 1 "a@x.com" (some 99) (some .MEMBER) [] 0).2
    tokens := (generateTokens ⟨[], [], 0⟩ 1 "a@x.com" (some 99) (some .MEMBER) [] 0).1
    tenant := none }

/-- C6 counterexample: user 1's only (active, OWNER) membership and default
tenant are tenant 7, yet login with explicit tenantId 99 — a tenant the
user is not a member of — succeeds and mints tokens for tenant 99 with
role MEMBER. The spec-worded resolution (`specResolveTenant`) requires the
fallback to the default tenant 7 instead, so the claimed "if and only if
the user is an active member" guard is absent from the code. -/
theorem c6_counterexample :
    login c6Db ⟨[], [], 0⟩ c6Dto 0 = .ok c6Result ∧
    c6Result.tokens.accessToken.payload.tenantId = some 99 ∧
    c6Result.tokens.accessToken.payload.role = some TenantRole.MEMBER ∧
    specResolveTenant c6Db c6User (some 99) = some 7 ∧
    (some 99 : Option Uid) ≠ some 7 :=
  ⟨by rfl, rfl, rfl, by rfl, by decide⟩

/-- The concrete result of the registration in the C6 scenario. -/
def c6RegResult : AuthResult :=
  { db :=
      { users := [{ id := 1, email := "a@x.com"
                    passwordHash := some (bcryptHash "s" "P@ssw0rd1")
                    salt := some "s", firstName := some "Ann"
                    lastName := some "Lee", isActive := true, isVerified := false
                    emailVerified := false, defaultTenantId := some 0
                    lastLoginAt := none }]
        tenants := [{ id := 0, name := "Workspace", slug := "ann", plan := "FREE"
                      isActive := true }]
        tenantUsers := [{ id := 2, tenantId := 0, userId := 1, role := .OWNER
                          permissions := [], isActive := true, invitedBy := none
                          invitedAt := none }]
        passwordResets := [], nextId := 3 }
    redis := (generateTokens ⟨[], [], 0⟩ 1 "a@x.com" (some 0) (some .OWNER) [] 0).2
    tokens := (generateTokens ⟨[], [], 0⟩ 1 "a@x.com" (some 0) (some .OWNER) [] 0).1
    tenant := some 0 }

/-- C6 (amended): login uses the explicitly supplied tenantId whenever one
is supplied — even when the user is not an active member of it, in which
case the minted role falls back to MEMBER with empty permissions — else
the default tenant, else the first active membership; when the resolved
tenant has a matching active membership, role and permissions come from
it. After register("a@x.com","P@ssw0rd1","Ann"), login returns tokens
whose role is OWNER and whose tenantId is the tenant created at
registration. -/
theorem c6_login_tenant_resolution
    (db : Db) (st : RedisStore) (dto : LoginDto) (now : Nat) (u : User)
    (h : HashedPassword)
    (hfind : findUserByEmail db dto.email = some u)
    (hact : u.isActive = true)
    (hhash : u.passwordHash = some h)
    (hcmp : bcryptCompare dto.password h = true) :
    (login db st dto now).isOk = true ∧
    (∀ tid tu, dto.tenantId = some tid →
      (activeMemberships db u.id).find? (fun x => x.tenantId == tid) = some tu →
      ∀ r, login db st dto now = .ok r →
        r.tokens.accessToken.payload.tenantId = some tid ∧
        r.tokens.accessToken.payload.role = some tu.role ∧
        r.tokens.accessToken.payload.permissions = tu.permissions) ∧
    (∀ tid, dto.tenantId = some tid →
      (activeMemberships db u.id).find? (fun x => x.tenantId == tid) = none →
      ∀ r, login db st dto now = .ok r →
        r.tokens.accessToken.payload.tenantId = some tid ∧
        r.tokens.accessToken.payload.role = some TenantRole.MEMBER ∧
        r.tokens.accessToken.payload.permissions = []) ∧
    (∀ dtid, dto.tenantId = none → u.defaultTenantId = some dtid →
      ∀ r, login db st dto now = .ok r →
        r.tokens.accessToken.payload.tenantId = some dtid) ∧
    (∀ tu rest, dto.tenantId = none → u.defaultTenantId = none →
      activeMemberships db u.id = tu :: rest →
      ∀ r, login db st dto now = .ok r →
        r.tokens.accessToken.payload.tenantId = some tu.tenantId ∧
        r.tokens.accessToken.payload.role = some tu.role) ∧
    register emptyDb ⟨[], [], 0⟩ c5Dto "s" "zzzz" 0 = .ok c6RegResult ∧
    (login c6RegResult.db c6RegResult.redis ⟨"a@x.com", "P@ssw0rd1", none⟩ 5).toOption.map
        (fun r => (r.tokens.accessToken.payload.tenantId,
                   r.tokens.accessToken.payload.role)) =
      some (some 0, some TenantRole.OWNER) := by
  have hred := login_ok_reduction db st dto now u h hfind hact hhash hcmp
  refine ⟨by rw [hred]; rfl, ?_, ?_, ?_, ?_, by rfl, by rfl⟩
  · intro tid tu htid hfq r hr
    have hres : loginResolveTenant db u dto.tenantId = (some tid, tu.role, tu.permissions) := by
      simp [loginResolveTenant, htid, Option.or, hfq]
    rw [hred] at hr
    obtain rfl := (Except.ok.inj hr).symm
    rw [hres]
    exact ⟨rfl, rfl, rfl⟩
  · intro tid htid hfq r hr
    have hres : loginResolveTenant db u dto.tenantId = (some tid, .MEMBER, []) := by
      simp [loginResolveTenant, htid, Option.or, hfq]
    rw [hred] at hr
    obtain rfl := (Except.ok.inj hr).symm
    rw [hres]
    exact ⟨rfl, rfl, rfl⟩
  · intro dtid htid hdef r hr
    have hres : (loginResolveTenant db u dto.tenantId).1 = some dtid := by
      cases hf : (activeMemberships db u.id).find? (fun x => x.tenantId == dtid) <;>
        simp [loginResolveTenant, htid, hdef, Option.or, hf]
    rw [hred] at hr
    obtain rfl := (Except.ok.inj hr).symm
    exact hres
  · intro tu rest htid hdef hmem r hr
    have hres : loginResolveTenant db u dto.tenantId = (some tu.tenantId, tu.role, tu.permissions) := by
      simp [loginResolveTenant, htid, hdef, Option.or, hmem]
    rw [hred] at hr
    obtain rfl := (Except.ok.inj hr).symm
    rw [hres]
    exact ⟨rfl, rfl⟩

/-- Witness for C6's amended theorem: the counterexample database again;
login with explicit tenant 99 succeeds with role MEMBER and tenant 99, and
login without an explicit tenant resolves to the default tenant 7. -/
theorem c6_login_tenant_resolution_witness :
    (login c6Db ⟨[], [], 0⟩ c6Dto 0).isOk = true ∧
    c6Result.tokens.accessToken.payload.tenantId = some 99 ∧
    c6Result.tokens.accessToken.payload.role = some TenantRole.MEMBER ∧
    register emptyDb ⟨[], [], 0⟩ c5Dto "s" "zzzz" 0 = .ok c6RegResult ∧
    (login c6RegResult.db c6RegResult.redis ⟨"a@x.com", "P@ssw0rd1", none⟩ 5).toOption.map
        (fun r => (r.tokens.accessToken.payload.tenantId,
                   r.tokens.accessToken.payload.role)) =
      some (some 0, some TenantRole.OWNER) := by
  have h := c6_login_tenant_resolution c6Db ⟨[], [], 0⟩ c6Dto 0 c6User
    (bcryptHash "s" "P@ssw0rd1") rfl rfl rfl (by decide)
  have hparts := h.2.2.1 99 rfl (by rfl) c6Result (by rfl)
  exact ⟨h.1, hparts.1, hparts.2.1, h.2.2.2.2.2.1, h.2.2.2.2.2.2⟩

/-- C8: membership guard rules, for a caller who passes the access and
role checks (an active OWNER or ADMIN member of the tenant, as the spec's
guard order requires): `removeMember` targeting an OWNER membership fails
`BadRequest`; `updateMember` changing a current OWNER's role to a
non-OWNER role fails `BadRequest`; an ADMIN removing themself fails
`BadRequest`; and each failing call returns the database unchanged. -/
theorem c8_membership_guards
    (db : Db) (tenantId actorId : Uid) (actor : TenantUser)
    (hactor : findTenantUser db tenantId actorId = some actor)
    (hactive : actor.isActive = true)
    (hrole : actor.role = TenantRole.OWNER ∨ actor.role = TenantRole.ADMIN) :
    (∀ (dto : RemoveMemberDto) (member : TenantUser),
      findTenantUser db tenantId dto.userId = some member →
      member.role = TenantRole.OWNER →
      removeMember db tenantId actorId dto =
        (db, .error (.badRequest "Cannot remove owner. Transfer ownership first."))) ∧
    (∀ (dto : UpdateMemberDto) (member : TenantUser) (r : TenantRole),
      findTenantUser db tenantId dto.userId = some member →
      member.role = TenantRole.OWNER → dto.role = some r →
      r ≠ TenantRole.OWNER →
      updateMember db tenantId actorId dto =
        (db, .error (.badRequest
          "Cannot change owner role. Use transfer ownership instead."))) ∧
    (actor.role = TenantRole.ADMIN →
      removeMember db tenantId actorId ⟨actorId⟩ =
        (db, .error (.badRequest "Admins cannot remove themselves"))) := by
  refine ⟨?_, ?_, ?_⟩
  · intro dto member hm howner
    rcases hrole with hr | hr <;>
      simp [removeMember, verifyTenantAccess, hactor, hactive, hr, hm, howner]
  · intro dto member r hm howner hdr hne
    rcases hrole with hr | hr <;>
      simp [updateMember, verifyTenantAccess, hactor, hactive, hr, hm, howner,
        hdr, hne]
  · intro hadm
    simp [removeMember, verifyTenantAccess, hactor, hactive, hadm]

/-- Tenant-7 membership rows for the C8/C4 fixtures: user 10 is the OWNER,
user 11 an ADMIN, user 12 a MEMBER. -/
def tuOwnerA : TenantUser :=
  { id := 30, tenantId := 7, userId := 10, role := .OWNER, permissions := []
    isActive := true, invitedBy := none, invitedAt := none }

/-- ADMIN membership row of the fixture tenant. -/
def tuAdminB : TenantUser :=
  { id := 31, tenantId := 7, userId := 11, role := .ADMIN, permissions := []
    isActive := true, invitedBy := none, invitedAt := none }

/-- MEMBER membership row of the fixture tenant. -/
def tuMemberC : TenantUser :=
  { id := 32, tenantId := 7, userId := 12, role := .MEMBER, permissions := []
    isActive := true, invitedBy := none, invitedAt := none }

/-- The three-member fixture database for C8 and C4. -/
def c8Db : Db :=
  { users := [], tenants := [], tenantUsers := [tuOwnerA, tuAdminB, tuMemberC]
    passwordResets := [], nextId := 40 }

/-- Witness for C8 on the fixture tenant: the ADMIN cannot remove the
OWNER, the OWNER cannot demote themself through updateMember, and the
ADMIN cannot remove themself; the database is unchanged each time. -/
theorem c8_membership_guards_witness :
    removeMember c8Db 7 11 ⟨10⟩ =
      (c8Db, .error (.badRequest "Cannot remove owner. Transfer ownership first.")) ∧
    updateMember c8Db 7 10 ⟨10, some .ADMIN, none, none⟩ =
      (c8Db, .error (.badRequest
        "Cannot change owner role. Use transfer ownership instead.")) ∧
    removeMember c8Db 7 11 ⟨11⟩ =
      (c8Db, .error (.badRequest "Admins cannot remove themselves")) := by
  have hadm := c8_membership_guards c8Db 7 11 tuAdminB rfl rfl (Or.inr rfl)
  have hown := c8_membership_guards c8Db 7 10 tuOwnerA rfl rfl (Or.inl rfl)
  exact ⟨hadm.1 ⟨10⟩ tuOwnerA rfl rfl,
    hown.2.1 ⟨10, some .ADMIN, none, none⟩ tuOwnerA .ADMIN rfl rfl rfl (by decide),
    hadm.2.2 rfl⟩

theorem ownersCount_eq_countP (db : Db) (t : Uid) :
    ownersCount db t = db.tenantUsers.countP (isOwnerRow t) := by
  unfold ownersCount ownersOf
  rw [List.countP_eq_length_filter]

theorem findTenantUser_mem {db : Db} {t uid : Uid} {tu : TenantUser}
    (h : findTenantUser db t uid = some tu) :
    tu ∈ db.tenantUsers ∧ tu.tenantId = t ∧ tu.userId = uid := by
  have hmem := List.mem_of_find?_eq_some h
  have hp := List.find?_some h
  simp only [Bool.and_eq_true, beq_iff_eq] at hp
  exact ⟨hmem, hp.1, hp.2⟩

theorem dbWF_id_inj {db : Db} (h : db.WF) {x y : TenantUser}
    (hx : x ∈ db.tenantUsers) (hy : y ∈ db.tenantUsers) (hid : x.id = y.id) :
    x = y :=
  List.inj_on_of_nodup_map h hx hy hid

theorem countP_owner_filter_out {l : List TenantUser} {member : TenantUser}
    (hnd : (l.map TenantUser.id).Nodup) (hmem : member ∈ l)
    (hrole : member.role ≠ TenantRole.OWNER) (t : Uid) :
    (l.filter (fun tu => decide (tu.id ≠ member.id))).countP (isOwnerRow t) =
      l.countP (isOwnerRow t) := by
  rw [List.countP_filter]
  apply List.countP_congr
  intro x hx
  simp only [Bool.and_eq_true, decide_eq_true_eq]
  constructor
  · rintro ⟨h1, _⟩
    exact h1
  · intro h1
    refine ⟨h1, ?_⟩
    intro hid
    have hxm : x = member := List.inj_on_of_nodup_map hnd hx hmem hid
    have hxo : x.role = TenantRole.OWNER := by
      have := h1
      simp only [isOwnerRow, Bool.and_eq_true, beq_iff_eq] at this
      exact this.2
    exact hrole (hxm ▸ hxo)

theorem countP_owner_map_update {l : List TenantUser} {member : TenantUser}
    {dto : UpdateMemberDto}
    (hnd : (l.map TenantUser.id).Nodup) (hmem : member ∈ l)
    (hdto : dto.role ≠ some TenantRole.OWNER)
    (hguard : ¬(member.role = TenantRole.OWNER ∧ dto.role ≠ none ∧
      dto.role ≠ some TenantRole.OWNER)) (t : Uid) :
    (l.map (fun tu =>
      if tu.id == member.id then applyMemberUpdate dto tu else tu)).countP
      (isOwnerRow t) = l.countP (isOwnerRow t) := by
  rw [List.countP_map]
  apply List.countP_congr
  intro x hx
  simp only [Function.comp]
  by_cases hid : x.id = member.id
  · have hxm : x = member := List.inj_on_of_nodup_map hnd hx hmem hid
    subst hxm
    cases hr : dto.role with
    | none =>
        simp [applyMemberUpdate, hr, isOwnerRow]
    | some r =>
        have hrne : r ≠ TenantRole.OWNER := by
          intro hcon
          exact hdto (hcon ▸ hr)
        have hxrole : x.role ≠ TenantRole.OWNER := by
          intro hown
          exact hguard ⟨hown, by simp [hr], by simp [hr, hrne]⟩
        simp [applyMemberUpdate, hr, isOwnerRow, hxrole, hrne]
  · simp [beq_eq_false_iff_ne.mpr hid]

theorem countP_owner_cons {l : List TenantUser} {tu : TenantUser} (t : Uid)
    (h : isOwnerRow t tu = false) :
    (tu :: l).countP (isOwnerRow t) = l.countP (isOwnerRow t) := by
  rw [List.countP_cons, h]
  simp

theorem removeMember_preserves_owners (db : Db) (tenantId actorId : Uid)
    (dto : RemoveMemberDto) (t : Uid) (hWF : db.WF) :
    ownersCount (removeMember db tenantId actorId dto).1 t = ownersCount db t := by
  cases hva : verifyTenantAccess db tenantId actorId with
  | error e => simp [removeMember, hva]
  | ok remover =>
    by_cases hrr : ¬(remover.role = TenantRole.OWNER ∨ remover.role = TenantRole.ADMIN)
    · simp [removeMember, hva, hrr]
    · cases hm : findTenantUser db tenantId dto.userId with
      | none => simp [removeMember, hva, hrr, hm]
      | some member =>
        by_cases how : member.role = TenantRole.OWNER
        · simp [removeMember, hva, hrr, hm, how]
        · by_cases hself : actorId = dto.userId ∧ remover.role = TenantRole.ADMIN
          · obtain ⟨hs1, hs2⟩ := hself
            subst hs1
            simp [removeMember, hva, hrr, hm, how, hs2]
          · simp only [removeMember, hva, hrr, hm, how, hself, if_neg,
              not_false_eq_true, if_true, if_false]
            rw [ownersCount_eq_countP, ownersCount_eq_countP]
            exact countP_owner_filter_out hWF (findTenantUser_mem hm).1 how t

theorem leaveTenant_preserves_owners (db : Db) (tenantId userId : Uid)
    (t : Uid) (hWF : db.WF) :
    ownersCount (leaveTenant db tenantId userId).1 t = ownersCount db t := by
  cases hva : verifyTenantAccess db tenantId userId with
  | error e => simp [leaveTenant, hva]
  | ok member =>
    by_cases how : member.role = TenantRole.OWNER
    · simp [leaveTenant, hva, how]
    · simp only [leaveTenant, hva, how, if_neg, not_false_eq_true, if_false]
      rw [ownersCount_eq_countP, ownersCount_eq_countP]
      have hmem : member ∈ db.tenantUsers := by
        cases hfind : findTenantUser db tenantId userId with
        | none => simp [verifyTenantAccess, hfind] at hva
        | some tu =>
            have : tu = member := by
              by_cases hact : tu.isActive = false
              · simp [verifyTenantAccess, hfind, hact] at hva
              · simp [verifyTenantAccess, hfind, hact] at hva
                exact hva
            exact this ▸ (findTenantUser_mem hfind).1
      exact countP_owner_filter_out hWF hmem how t

theorem updateMember_preserves_owners (db : Db) (tenantId actorId : Uid)
    (dto : UpdateMemberDto) (t : Uid) (hWF : db.WF)
    (hdto : dto.role ≠ some TenantRole.OWNER) :
    ownersCount (updateMember db tenantId actorId dto).1 t = ownersCount db t := by
  cases hva : verifyTenantAccess db tenantId actorId with
  | error e => simp [updateMember, hva]
  | ok updater =>
    by_cases hrr : ¬(updater.role = TenantRole.OWNER ∨ updater.role = TenantRole.ADMIN)
    · simp [updateMember, hva, hrr]
    · cases hm : findTenantUser db tenantId dto.userId with
      | none => simp [updateMember, hva, hrr, hm]
      | some member =>
        by_cases hg : member.role = TenantRole.OWNER ∧ dto.role ≠ none ∧
            dto.role ≠ some TenantRole.OWNER
        · simp [updateMember, hva, hrr, hm, hg]
        · by_cases hf : updater.role ≠ TenantRole.OWNER ∧
              (dto.role = some TenantRole.OWNER ∨ member.role = TenantRole.OWNER)
          · simp only [updateMember, hva, hrr, hm, hg, hf, if_true, if_false,
              not_false_eq_true]
            split
            · rfl
            · rw [if_pos ⟨hf.1, trivial⟩]
          · simp only [updateMember, hva, hrr, hm, hg, hf, if_neg,
              not_false_eq_true, if_true, if_false]
            rw [ownersCount_eq_countP, ownersCount_eq_countP]
            exact countP_owner_map_update hWF (findTenantUser_mem hm).1 hdto hg t

theorem inviteUser_preserves_owners (db : Db) (tenantId inviterId : Uid)
    (dto : InviteUserDto) (now : Nat) (t : Uid)
    (hdto : dto.role ≠ TenantRole.OWNER) :
    ownersCount (inviteUser db tenantId inviterId dto now).1 t =
      ownersCount db t := by
  have hrow : ∀ id uid inv,
      isOwnerRow t { id := id, tenantId := tenantId, userId := uid
                     role := dto.role, permissions := dto.permissions.getD []
                     isActive := false, invitedBy := some inv
                     invitedAt := some now : TenantUser } = false := by
    intro id uid inv
    simp [isOwnerRow, hdto]
  cases hva : verifyTenantAccess db tenantId inviterId with
  | error e => simp [inviteUser, hva]
  | ok inviter =>
    by_cases hrr : ¬(inviter.role = TenantRole.OWNER ∨ inviter.role = TenantRole.ADMIN)
    · simp [inviteUser, hva, hrr]
    · cases hu : findUserByEmail db dto.email with
      | some user =>
        cases hm : findTenantUser db tenantId user.id with
        | some m => simp [inviteUser, hva, hrr, hu, hm]
        | none =>
            simp only [inviteUser, hva, hrr, hu, hm, if_neg, not_false_eq_true,
              if_true, if_false]
            rw [ownersCount_eq_countP, ownersCount_eq_countP]
            exact countP_owner_cons t (hrow db.nextId user.id inviterId)
      | none =>
          simp only [inviteUser, hva, hrr, hu, if_neg, not_false_eq_true,
            if_true, if_false]
          rw [ownersCount_eq_countP, ownersCount_eq_countP]
          exact countP_owner_cons t (hrow (db.nextId + 1) db.nextId inviterId)

theorem transferOwnership_result
    (db : Db) (t A B : Uid) (ma mb : TenantUser)
    (hWF : db.WF)
    (hma : findTenantUser db t A = some ma)
    (hmaAct : ma.isActive = true)
    (hmaRole : ma.role = TenantRole.OWNER)
    (hmb : findTenantUser db t B = some mb)
    (hAB : A ≠ B)
    (huniq : ∀ x ∈ db.tenantUsers, x.tenantId = t →
      x.role = TenantRole.OWNER → x = ma) :
    (transferOwnership db t A ⟨B⟩).2 = .ok () ∧
    ownersCount (transferOwnership db t A ⟨B⟩).1 t = 1 ∧
    findTenantUser (transferOwnership db t A ⟨B⟩).1 t B =
      some { mb with role := TenantRole.OWNER } ∧
    findTenantUser (transferOwnership db t A ⟨B⟩).1 t A =
      some { ma with role := TenantRole.ADMIN } := by
  obtain ⟨hmaMem, hmaT, hmaU⟩ := findTenantUser_mem hma
  obtain ⟨hmbMem, hmbT, hmbU⟩ := findTenantUser_mem hmb
  have hmamb : ma ≠ mb := by
    intro he
    exact hAB (hmaU ▸ hmbU ▸ congrArg TenantUser.userId he)
  have hidne : ma.id ≠ mb.id := fun hid =>
    hmamb (dbWF_id_inj hWF hmaMem hmbMem hid)
  have hgma :
      updateRowRole mb.id TenantRole.OWNER (updateRowRole ma.id TenantRole.ADMIN ma) =
        { ma with role := TenantRole.ADMIN } := by
    simp [updateRowRole, beq_eq_false_iff_ne.mpr hidne]
  have hgmb :
      updateRowRole mb.id TenantRole.OWNER (updateRowRole ma.id TenantRole.ADMIN mb) =
        { mb with role := TenantRole.OWNER } := by
    simp [updateRowRole, beq_eq_false_iff_ne.mpr (Ne.symm hidne)]
  have hgother : ∀ x : TenantUser, x.id ≠ ma.id → x.id ≠ mb.id →
      updateRowRole mb.id TenantRole.OWNER (updateRowRole ma.id TenantRole.ADMIN x) = x := by
    intro x h1 h2
    simp [updateRowRole, beq_eq_false_iff_ne.mpr h1, beq_eq_false_iff_ne.mpr h2]
  have hop : transferOwnership db t A ⟨B⟩ =
      ({ db with tenantUsers := (db.tenantUsers.map
          (updateRowRole mb.id TenantRole.OWNER ∘ updateRowRole ma.id TenantRole.ADMIN)) },
        .ok ()) := by
    simp [transferOwnership, verifyTenantAccess, hma, hmaAct, hmaRole, hmb,
      List.map_map]
  rw [hop]
  refine ⟨rfl, ?_, ?_, ?_⟩
  · rw [ownersCount_eq_countP]
    show (db.tenantUsers.map
        (updateRowRole mb.id TenantRole.OWNER ∘ updateRowRole ma.id TenantRole.ADMIN)).countP
        (isOwnerRow t) = 1
    rw [List.countP_map]
    have hcong : db.tenantUsers.countP
        (isOwnerRow t ∘ (updateRowRole mb.id TenantRole.OWNER ∘ updateRowRole ma.id TenantRole.ADMIN)) =
        db.tenantUsers.countP (fun x => x.id == mb.id) := by
      apply List.countP_congr
      intro x hx
      simp only [Function.comp_apply, beq_iff_eq]
      by_cases hxmb : x.id = mb.id
      · have hxeq : x = mb := dbWF_id_inj hWF hx hmbMem hxmb
        subst hxeq
        rw [hgmb]
        simp [isOwnerRow, hmbT]
      · by_cases hxma : x.id = ma.id
        · have hxeq : x = ma := dbWF_id_inj hWF hx hmaMem hxma
          subst hxeq
          rw [hgma]
          simp [isOwnerRow, hxmb]
        · rw [hgother x hxma hxmb]
          simp only [hxmb, iff_false]
          intro hro
          simp only [isOwnerRow, Bool.and_eq_true, beq_iff_eq] at hro
          exact hxma (congrArg TenantUser.id (huniq x hx hro.1 hro.2))
    rw [hcong]
    have hcount : db.tenantUsers.countP (fun x => x.id == mb.id) =
        (db.tenantUsers.map TenantUser.id).count mb.id := by
      show _ = (db.tenantUsers.map TenantUser.id).countP (fun i => i == mb.id)
      rw [List.countP_map]
      rfl
    rw [hcount]
    exact List.count_eq_one_of_mem hWF (List.mem_map_of_mem _ hmbMem)
  · show (db.tenantUsers.map
        (updateRowRole mb.id TenantRole.OWNER ∘ updateRowRole ma.id TenantRole.ADMIN)).find?
        (fun tu => tu.tenantId == t && tu.userId == B) =
      some { mb with role := TenantRole.OWNER }
    rw [List.find?_map]
    have hpres : ((fun tu : TenantUser => tu.tenantId == t && tu.userId == B) ∘
        (updateRowRole mb.id TenantRole.OWNER ∘ updateRowRole ma.id TenantRole.ADMIN)) =
        (fun tu : TenantUser => tu.tenantId == t && tu.userId == B) := by
      funext x
      by_cases h1 : x.id = ma.id
      · by_cases h2 : x.id = mb.id
        · exact absurd (h1 ▸ h2) hidne
        · simp [Function.comp, updateRowRole, beq_iff_eq.mpr h1,
            beq_eq_false_iff_ne.mpr h2]
      · by_cases h2 : x.id = mb.id
        · simp [Function.comp, updateRowRole, beq_eq_false_iff_ne.mpr h1,
            beq_iff_eq.mpr h2]
        · simp [Function.comp, updateRowRole, beq_eq_false_iff_ne.mpr h1,
            beq_eq_false_iff_ne.mpr h2]
    rw [hpres]
    have hfind : db.tenantUsers.find?
        (fun tu => tu.tenantId == t && tu.userId == B) = some mb := hmb
    rw [hfind]
    simp only [Option.map_some', Function.comp_apply]
    rw [hgmb]
  · show (db.tenantUsers.map
        (updateRowRole mb.id TenantRole.OWNER ∘ updateRowRole ma.id TenantRole.ADMIN)).find?
        (fun tu => tu.tenantId == t && tu.userId == A) =
      some { ma with role := TenantRole.ADMIN }
    rw [List.find?_map]
    have hpres : ((fun tu : TenantUser => tu.tenantId == t && tu.userId == A) ∘
        (updateRowRole mb.id TenantRole.OWNER ∘ updateRowRole ma.id TenantRole.ADMIN)) =
        (fun tu : TenantUser => tu.tenantId == t && tu.userId == A) := by
      funext x
      by_cases h1 : x.id = ma.id
      · by_cases h2 : x.id = mb.id
        · exact absurd (h1 ▸ h2) hidne
        · simp [Function.comp, updateRowRole, beq_iff_eq.mpr h1,
            beq_eq_false_iff_ne.mpr h2]
      · by_cases h2 : x.id = mb.id
        · simp [Function.comp, updateRowRole, beq_eq_false_iff_ne.mpr h1,
            beq_iff_eq.mpr h2]
        · simp [Function.comp, updateRowRole, beq_eq_false_iff_ne.mpr h1,
            beq_eq_false_iff_ne.mpr h2]
    rw [hpres]
    have hfind : db.tenantUsers.find?
        (fun tu => tu.tenantId == t && tu.userId == A) = some ma := hma
    rw [hfind]
    simp only [Option.map_some', Function.comp_apply]
    rw [hgma]

/-- C4 counterexample: on the three-member tenant 7 holding exactly one
OWNER, the OWNER (user 10) grants the OWNER role to the MEMBER (user 12)
through `updateMember`, which succeeds and leaves the tenant with two
OWNER memberships — so the one-OWNER invariant is not preserved by every
membership operation. -/
theorem c4_counterexample :
    ownersCount c8Db 7 = 1 ∧
    (updateMember c8Db 7 10 ⟨12, some .OWNER, none, none⟩).2 = .ok () ∧
    ownersCount (updateMember c8Db 7 10 ⟨12, some .OWNER, none, none⟩).1 7 = 2 :=
  ⟨by decide, by rfl, by decide⟩

/-- C4 (amended): the one-OWNER-per-tenant invariant is preserved by
`removeMember`, `leaveTenant` and `transferOwnership` unconditionally, by
`updateMember` when the requested role is not OWNER, and by `inviteUser`
when the invited role is not OWNER; `transferOwnership(t, A, B)` with
`A ≠ B` leaves B's row the single OWNER membership and A's row with role
ADMIN. (As the counterexample shows, `updateMember` requesting role OWNER
can create a second OWNER, so the unconditional claim fails.) -/
theorem c4_owner_invariant :
    (∀ (db : Db) (t A B : Uid) (ma mb : TenantUser), db.WF →
      findTenantUser db t A = some ma → ma.isActive = true →
      ma.role = TenantRole.OWNER → findTenantUser db t B = some mb → A ≠ B →
      (∀ x ∈ db.tenantUsers, x.tenantId = t → x.role = TenantRole.OWNER → x = ma) →
      (transferOwnership db t A ⟨B⟩).2 = .ok () ∧
      ownersCount (transferOwnership db t A ⟨B⟩).1 t = 1 ∧
      findTenantUser (transferOwnership db t A ⟨B⟩).1 t B =
        some { mb with role := TenantRole.OWNER } ∧
      findTenantUser (transferOwnership db t A ⟨B⟩).1 t A =
        some { ma with role := TenantRole.ADMIN }) ∧
    (∀ (db : Db) (tenantId actorId : Uid) (dto : RemoveMemberDto) (t : Uid),
      db.WF →
      ownersCount (removeMember db tenantId actorId dto).1 t = ownersCount db t) ∧
    (∀ (db : Db) (tenantId userId t : Uid), db.WF →
      ownersCount (leaveTenant db tenantId userId).1 t = ownersCount db t) ∧
    (∀ (db : Db) (tenantId actorId : Uid) (dto : UpdateMemberDto) (t : Uid),
      db.WF → dto.role ≠ some TenantRole.OWNER →
      ownersCount (updateMember db tenantId actorId dto).1 t = ownersCount db t) ∧
    (∀ (db : Db) (tenantId inviterId : Uid) (dto : InviteUserDto) (now : Nat)
        (t : Uid), dto.role ≠ TenantRole.OWNER →
      ownersCount (inviteUser db tenantId inviterId dto now).1 t =
        ownersCount db t) :=
  ⟨fun db t A B ma mb hWF hma hAct hRole hmb hAB huniq =>
      transferOwnership_result db t A B ma mb hWF hma hAct hRole hmb hAB huniq,
   fun db tenantId actorId dto t hWF =>
      removeMember_preserves_owners db tenantId actorId dto t hWF,
   fun db tenantId userId t hWF =>
      leaveTenant_preserves_owners db tenantId userId t hWF,
   fun db tenantId actorId dto t hWF hdto =>
      updateMember_preserves_owners db tenantId actorId dto t hWF hdto,
   fun db tenantId inviterId dto now t hdto =>
      inviteUser_preserves_owners db tenantId inviterId dto now t hdto⟩

/-- Witness for C4's amended theorem on the three-member fixture tenant:
ownership transfer from user 10 to user 11 keeps exactly one OWNER (user
11's row) and demotes user 10 to ADMIN; removing the MEMBER, the MEMBER
leaving, a role update to ADMIN, and an invite with role MEMBER all keep
the OWNER count at one. -/
theorem c4_owner_invariant_witness :
    (transferOwnership c8Db 7 10 ⟨11⟩).2 = .ok () ∧
    ownersCount (transferOwnership c8Db 7 10 ⟨11⟩).1 7 = 1 ∧
    findTenantUser (transferOwnership c8Db 7 10 ⟨11⟩).1 7 11 =
      some { tuAdminB with role := TenantRole.OWNER } ∧
    findTenantUser (transferOwnership c8Db 7 10 ⟨11⟩).1 7 10 =
      some { tuOwnerA with role := TenantRole.ADMIN } ∧
    ownersCount (removeMember c8Db 7 10 ⟨12⟩).1 7 = ownersCount c8Db 7 ∧
    ownersCount (leaveTenant c8Db 7 12).1 7 = ownersCount c8Db 7 ∧
    ownersCount (updateMember c8Db 7 10 ⟨12, some .ADMIN, none, none⟩).1 7 =
      ownersCount c8Db 7 ∧
    ownersCount (inviteUser c8Db 7 10 ⟨"new@x.com", .MEMBER, none⟩ 9).1 7 =
      ownersCount c8Db 7 := by
  have h := c4_owner_invariant
  have hwf : c8Db.WF := by
    unfold Db.WF
    decide
  have ht := h.1 c8Db 7 10 11 tuOwnerA tuAdminB hwf rfl rfl rfl rfl
    (by decide) (by decide)
  exact ⟨ht.1, ht.2.1, ht.2.2.1, ht.2.2.2,
    h.2.1 c8Db 7 10 ⟨12⟩ 7 hwf,
    h.2.2.1 c8Db 7 12 7 hwf,
    h.2.2.2.1 c8Db 7 10 ⟨12, some .ADMIN, none, none⟩ 7 hwf (by decide),
    h.2.2.2.2 c8Db 7 10 ⟨"new@x.com", .MEMBER, none⟩ 9 7 (by decide)⟩
